import Mathlib

/-!
# Device-context manager: `rocclr/runtime/platform/context.cpp`

A shallow embedding of `amd::Context` (property parsing, construction,
external-device binding, host / shared-virtual-memory allocation and the
device-queue registry) together with theorems about it.

Conventions of the embedding:

* pointers are `Nat` addresses, `0` is `NULL`;
* `intptr_t` keys are `Int`;
* `uint` / `size_t` arithmetic is written with an explicit modulus;
* a device is a record: its address (`id`) and the answers of the `Device`
  member functions the context calls;
* calls the context issues to its collaborators are recorded, in order, in a
  `List Call`.
-/

namespace amd

/-! ## Build configuration -/

/-- Preprocessor platform selection: which of `_WIN32`, `__linux__`,
`__APPLE__ || __MACOSX` is defined (`other`: none of them). -/
inductive Platform where
  | win32
  | linux
  | apple
  | other
  deriving DecidableEq, Repr

/-- Build parameters the translation unit depends on: the platform macros,
whether `NDEBUG` is defined (then `assert` expands to nothing), the size in
bytes of `intptr_t` / `void*` / `size_t`, and the address `AMD_PLATFORM`. -/
structure Build where
  platform : Platform
  NDEBUG : Bool
  ptrBytes : Nat
  AMD_PLATFORM : Nat
  deriving DecidableEq, Repr

/-- Modulus of `uint` arithmetic (`unsigned int`, 32 bits). -/
def UINT_MOD : Nat := 2 ^ 32

/-- Modulus of `size_t` arithmetic for the build. -/
def Build.sizeMod (b : Build) : Nat := 2 ^ (8 * b.ptrBytes)

/-! ## OpenCL constants (values of the Khronos / AMD headers) -/

/-- Value of `CL_SUCCESS` in `CL/cl.h`. -/
def CL_SUCCESS : Int := 0
/-- Value of `CL_OUT_OF_HOST_MEMORY` in `CL/cl.h`. -/
def CL_OUT_OF_HOST_MEMORY : Int := -6
/-- Value of `CL_INVALID_VALUE` in `CL/cl.h`. -/
def CL_INVALID_VALUE : Int := -30
/-- Value of `CL_INVALID_PROPERTY` in `CL/cl.h`. -/
def CL_INVALID_PROPERTY : Int := -64
/-- Value of `CL_INVALID_GL_SHAREGROUP_REFERENCE_KHR` in `CL/cl_gl.h`. -/
def CL_INVALID_GL_SHAREGROUP_REFERENCE_KHR : Int := -1000
/-- Value of `CL_TRUE` in `CL/cl.h`. -/
def CL_TRUE : Nat := 1

/-- Value of `CL_DEVICE_TYPE_CPU` in `CL/cl.h`. -/
def CL_DEVICE_TYPE_CPU : Nat := 2
/-- Value of `CL_DEVICE_TYPE_GPU` in `CL/cl.h`. -/
def CL_DEVICE_TYPE_GPU : Nat := 4
/-- Value of `CL_DEVICE_TYPE_ACCELERATOR` in `CL/cl.h`. -/
def CL_DEVICE_TYPE_ACCELERATOR : Nat := 8

/-- Property key `CL_CONTEXT_PLATFORM`. -/
def CL_CONTEXT_PLATFORM : Int := 0x1084
/-- Property key `CL_CONTEXT_INTEROP_USER_SYNC`. -/
def CL_CONTEXT_INTEROP_USER_SYNC : Int := 0x1085
/-- Property key `CL_GL_CONTEXT_KHR`. -/
def CL_GL_CONTEXT_KHR : Int := 0x2008
/-- Property key `CL_GLX_DISPLAY_KHR`. -/
def CL_GLX_DISPLAY_KHR : Int := 0x200A
/-- Property key `CL_WGL_HDC_KHR`. -/
def CL_WGL_HDC_KHR : Int := 0x200B
/-- Property key `CL_CGL_SHAREGROUP_KHR`. -/
def CL_CGL_SHAREGROUP_KHR : Int := 0x200C
/-- Property key `CL_CONTEXT_ADAPTER_D3D9_KHR`. -/
def CL_CONTEXT_ADAPTER_D3D9_KHR : Int := 0x2025
/-- Property key `CL_CONTEXT_ADAPTER_D3D9EX_KHR`. -/
def CL_CONTEXT_ADAPTER_D3D9EX_KHR : Int := 0x2026
/-- Property key `CL_CONTEXT_ADAPTER_DXVA_KHR`. -/
def CL_CONTEXT_ADAPTER_DXVA_KHR : Int := 0x2027
/-- Property key `CL_CONTEXT_D3D10_DEVICE_KHR`. -/
def CL_CONTEXT_D3D10_DEVICE_KHR : Int := 0x4014
/-- Property key `CL_CONTEXT_D3D11_DEVICE_KHR`. -/
def CL_CONTEXT_D3D11_DEVICE_KHR : Int := 0x401D
/-- Property key `CL_CONTEXT_COMMAND_INTERCEPT_CALLBACK_AMD`. -/
def CL_CONTEXT_COMMAND_INTERCEPT_CALLBACK_AMD : Int := 0x403D
/-- Property key `CL_CONTEXT_OFFLINE_DEVICES_AMD`. -/
def CL_CONTEXT_OFFLINE_DEVICES_AMD : Int := 0x403F

/-! ## `Context::Info` -/

/-- Modelled from the spec: the `Context::Flags` enumeration is declared in
`context.hpp`, which is not under src/; each flag is one distinct bit of
`Info::flags_` (spec section 3: "a bit-flag set"). -/
def GLDeviceKhr : Nat := 1
/-- Modelled from the spec: flag bit of `Context::Flags` for Direct3D 10. -/
def D3D10DeviceKhr : Nat := 2
/-- Modelled from the spec: flag bit of `Context::Flags` for offline devices. -/
def OfflineDevices : Nat := 4
/-- Modelled from the spec: flag bit of `Context::Flags` for the intercept
callback. -/
def CommandIntercept : Nat := 8
/-- Modelled from the spec: flag bit of `Context::Flags` for Direct3D 11. -/
def D3D11DeviceKhr : Nat := 16
/-- Modelled from the spec: flag bit of `Context::Flags` for interop user
sync. -/
def InteropUserSync : Nat := 32
/-- Modelled from the spec: flag bit of `Context::Flags` for a D3D9 adapter. -/
def D3D9DeviceKhr : Nat := 64
/-- Modelled from the spec: flag bit of `Context::Flags` for a D3D9-EX
adapter. -/
def D3D9DeviceEXKhr : Nat := 128
/-- Modelled from the spec: flag bit of `Context::Flags` for a DXVA adapter. -/
def D3D9DeviceVAKhr : Nat := 256

/-- Modelled from the spec: the `Context::Info` structure is declared in
`context.hpp`, which is not under src/; its fields are the ones
`checkProperties` writes (spec section 3, ContextDescriptor): the flag set,
the external-device type tag, the two external handles, the byte size of the
property buffer and the intercept callback (a code address, `0` when
absent). -/
structure Info where
  flags_ : Nat
  type_ : Int
  hDev_ : Nat
  hCtx_ : Nat
  propertiesSize_ : Nat
  commandIntercept_ : Nat
  deriving DecidableEq, Repr

/-- Result of `::memset(info, 0, sizeof(Context::Info))`. -/
def Info.zero : Info :=
  { flags_ := 0, type_ := 0, hDev_ := 0, hCtx_ := 0, propertiesSize_ := 0,
    commandIntercept_ := 0 }

/-! ## `Context::checkProperties` -/

/-- The local `struct Element { intptr_t name; void* ptr; }` through which
the property buffer is read. -/
structure Element where
  name : Int
  ptr : Nat
  deriving DecidableEq, Repr

/-- What one pass through the `switch` does: `next` is a `break` (the loop
goes on with the updated descriptor), `ret` is a `return` from inside the
switch, `fatal` is a stop of the process. -/
inductive Step where
  | next (info : Info)
  | ret (code : Int) (info : Info)
  | fatal
  deriving DecidableEq, Repr

/-- How a call of `checkProperties` ends: it returns a status and leaves the
descriptor `info` behind, it stops in `Unimplemented()`, or the scan runs past
the end of the buffer because no zero key was found. -/
inductive ParseResult where
  | returned (code : Int) (info : Info)
  | fatal
  | outOfBounds
  deriving DecidableEq, Repr

/-- Status returned, when the call returned. -/
def ParseResult.code : ParseResult → Option Int
  | .returned c _ => some c
  | _ => none

/-- Descriptor left behind, when the call returned. -/
def ParseResult.info : ParseResult → Option Info
  | .returned _ i => some i
  | _ => none

/-- Body shared by `case CL_GL_CONTEXT_KHR:` and the labels that fall through
into it (`CL_WGL_HDC_KHR`, `CL_GLX_DISPLAY_KHR`). -/
def glContextCase (e : Element) (info : Info) : Step :=
  if e.ptr = 0 then .ret CL_INVALID_GL_SHAREGROUP_REFERENCE_KHR info
  else
    let info1 :=
      if e.name = CL_GL_CONTEXT_KHR then { info with type_ := e.name, hCtx_ := e.ptr }
      else info
    .next { info1 with flags_ := info1.flags_ ||| GLDeviceKhr }

/-- Body shared by the five Direct3D labels of the `_WIN32` section. -/
def d3dCase (e : Element) (info : Info) (flag : Nat) : Step :=
  if e.ptr = 0 then .ret CL_INVALID_VALUE info
  else .next { info with hDev_ := e.ptr, type_ := e.name, flags_ := info.flags_ ||| flag }

/-- Modelled from the spec: the `Unimplemented()` macro is not under src/; the
Apple share-group branch that calls it is an unimplemented placeholder (spec
section 9), taken here to stop the call without a result. -/
def Unimplemented : Step := .fatal

/-- The `switch (p->name)` of `checkProperties` for a non-zero key; the labels
of a preprocessor section are present only on its platform, and a label
without `break` falls through into the next one present. -/
def switchCase (b : Build) (e : Element) (info : Info) : Step :=
  if e.name = CL_CONTEXT_INTEROP_USER_SYNC then
    .next (if e.ptr = CL_TRUE then { info with flags_ := info.flags_ ||| InteropUserSync }
           else info)
  else if b.platform = .win32 ∧ e.name = CL_CONTEXT_D3D10_DEVICE_KHR then
    d3dCase e info D3D10DeviceKhr
  else if b.platform = .win32 ∧ e.name = CL_CONTEXT_D3D11_DEVICE_KHR then
    d3dCase e info D3D11DeviceKhr
  else if b.platform = .win32 ∧ e.name = CL_CONTEXT_ADAPTER_D3D9_KHR then
    d3dCase e info D3D9DeviceKhr
  else if b.platform = .win32 ∧ e.name = CL_CONTEXT_ADAPTER_D3D9EX_KHR then
    d3dCase e info D3D9DeviceEXKhr
  else if b.platform = .win32 ∧ e.name = CL_CONTEXT_ADAPTER_DXVA_KHR then
    d3dCase e info D3D9DeviceVAKhr
  else if b.platform = .win32 ∧ e.name = CL_WGL_HDC_KHR then
    glContextCase e { info with hDev_ := e.ptr }
  else if b.platform = .linux ∧ e.name = CL_GLX_DISPLAY_KHR then
    glContextCase e { info with hDev_ := e.ptr }
  else if b.platform = .apple ∧ e.name = CL_CGL_SHAREGROUP_KHR then
    Unimplemented
  else if e.name = CL_GL_CONTEXT_KHR then
    glContextCase e info
  else if e.name = CL_CONTEXT_PLATFORM then
    if e.ptr ≠ 0 ∧ b.AMD_PLATFORM ≠ e.ptr then .ret CL_INVALID_VALUE info
    else .next info
  else if e.name = CL_CONTEXT_OFFLINE_DEVICES_AMD then
    if e.ptr ≠ 1 then .ret CL_INVALID_VALUE info
    else .next { info with flags_ := info.flags_ ||| OfflineDevices }
  else if e.name = CL_CONTEXT_COMMAND_INTERCEPT_CALLBACK_AMD then
    .next { info with commandIntercept_ := e.ptr,
                      flags_ := info.flags_ ||| CommandIntercept }
  else
    .ret CL_INVALID_VALUE info

/-- Byte size stored in `propertiesSize_`:
`count * sizeof(Element) + sizeof(intptr_t)` in `size_t` arithmetic. -/
def propertiesBytes (b : Build) (count : Nat) : Nat :=
  (count * (2 * b.ptrBytes) + b.ptrBytes) % b.sizeMod

/-- The `while (p->name != 0)` loop over the buffer `p`, with the `uint`
counter `count` and the descriptor written so far. -/
def checkLoop (b : Build) : List Element → Nat → Info → ParseResult
  | [], _, _ => .outOfBounds
  | e :: rest, count, info =>
    if e.name = 0 then
      .returned CL_SUCCESS { info with propertiesSize_ := propertiesBytes b count }
    else
      match switchCase b e info with
      | .next info1 => checkLoop b rest ((count + 1) % UINT_MOD) info1
      | .ret code info1 => .returned code info1
      | .fatal => .fatal

/-- The function `Context::checkProperties(properties, info)`. `properties` is
`none` for a null pointer, else the memory it points to read as `Element`s;
`info` is what the out-parameter held before the call. -/
def checkProperties (b : Build) (properties : Option (List Element)) (_info : Info) :
    ParseResult :=
  match properties with
  | none => .returned CL_SUCCESS Info.zero
  | some p => checkLoop b p 0 Info.zero

/-! ## Collaborators -/

/-- Modelled from the spec: the `Device` class is declared outside src/; the
record carries the address of the device object (`id`, what pointer
comparison sees) and the capability surface of spec section 6: class tag
`type()`, `svmSupport()`, `customHostAllocator()`, `info().maxOnDeviceQueues_`
(a `cl_uint`), `isAncestor(other)`, and the answers of `bindExternalDevice`,
`hostAlloc` and `svmAlloc` to a request. -/
structure Device where
  id : Nat
  type : Nat
  svmSupport : Bool
  customHostAllocator : Bool
  maxOnDeviceQueues_ : Nat
  isAncestor : Nat → Bool
  bindExternalDevice : Int → Nat → Nat → Bool → Bool
  hostAlloc : Nat → Nat → Bool → Nat
  svmAlloc : Nat → Nat → Nat → Nat

/-- Modelled from the spec: the process-level collaborators are not under
src/ (`AlignedMemory::allocate`, the `new[]` of the property copy and the
`new GLFunctions`, which answer whether they gave a non-null result,
`Os::loadLibrary`, `GLFunctions::init`); each is the answer to a request. -/
structure Env where
  alignedAllocate : Nat → Nat → Nat
  newProperties : Nat → Bool
  loadLibrary : String → Nat
  newGLFunctions : Nat → Bool
  glInit : Nat → Nat → Nat → Bool

/-- Calls the context issues to its collaborators, recorded in order. The
first argument of a device call is the address of the device called. -/
inductive Call where
  | retain (dev : Nat)
  | release (dev : Nat)
  | bindExternalDevice (dev : Nat) (type : Int) (hDev hCtx : Nat) (validateOnly : Bool)
  | unbindExternalDevice (dev : Nat) (type : Int) (hDev hCtx : Nat) (validateOnly : Bool)
  | hostAlloc (dev : Nat) (size alignment : Nat) (atomics : Bool)
  | hostFree (dev : Nat) (ptr : Nat)
  | svmAlloc (dev : Nat) (size alignment flags : Nat)
  | svmFree (dev : Nat) (ptr : Nat)
  | alignedAllocate (size alignment : Nat)
  | alignedDeallocate (ptr : Nat)
  | loadLibrary (name : String)
  | glInit (h hDev hCtx : Nat)
  deriving DecidableEq, Repr

/-- Whether a recorded call is some device's `svmAlloc`. -/
def Call.isSvmAlloc : Call → Bool
  | .svmAlloc _ _ _ _ => true
  | _ => false

/-! ## The context object -/

/-- Modelled from the spec: `DeviceQueueInfo` is declared in `context.hpp`,
which is not under src/: the default-queue pointer and the `uint` live-queue
counter (spec section 3). -/
structure DeviceQueueInfo where
  defDeviceQueue_ : Nat
  deviceQueueCnt_ : Nat
  deriving DecidableEq, Repr

/-- Modelled from the spec: value of a `DeviceQueueInfo` the map creates on
first touch: no default queue, zero live queues (spec sections 3 and 4.6). -/
def DeviceQueueInfo.init : DeviceQueueInfo :=
  { defDeviceQueue_ := 0, deviceQueueCnt_ := 0 }

/-- Data members of `amd::Context`. `properties_` is the owned copy of the
property buffer as a list of words (`none`: null); `glenv_` is the
`GLFunctions` object, named by its library handle; `deviceQueues_` is the
`std::map` from device address to `DeviceQueueInfo`. -/
structure Context where
  devices_ : List Device
  info_ : Info
  properties_ : Option (List Int)
  glenv_ : Option Nat
  customHostAllocDevice_ : Option Device
  svmAllocDevice_ : List Device
  deviceQueues_ : Nat → Option DeviceQueueInfo

/-! ## `Context::Context` -/

/-- The range-for loop of the constructor over the remaining devices, with
the members written so far and the calls issued so far; `none` when the
`assert` on a second custom host allocator fires. -/
def ctorLoop (b : Build) :
    List Device → Option Device → List Device → List Call →
      Option (Option Device × List Device × List Call)
  | [], custom, svm, calls => some (custom, svm, calls)
  | device :: rest, custom, svm, calls =>
    let calls1 := calls ++ [Call.retain device.id]
    let svm1 := if device.svmSupport then svm ++ [device] else svm
    if device.customHostAllocator then
      if b.NDEBUG = false ∧ custom.isSome then none
      else ctorLoop b rest (some device) svm1 calls1
    else ctorLoop b rest custom svm1 calls1

/-- The statement `std::swap(v.front(), v.back())` on a vector. -/
def swapFrontBack : List Device → List Device
  | [] => []
  | f :: rest =>
    match rest.getLast? with
    | none => [f]
    | some bk => (bk :: rest).set rest.length f

/-- Whether `device->type() == CL_DEVICE_TYPE_CPU` holds for the front of a
vector (false on an empty one, where the source does not ask). -/
def frontIsCpu : List Device → Bool
  | [] => false
  | f :: _ => f.type = CL_DEVICE_TYPE_CPU

/-- The constructor `Context::Context(devices, info)`: the context built and
the calls issued, or `none` when an `assert` aborts. -/
def Context.new (b : Build) (devices : List Device) (info : Info) :
    Option (Context × List Call) :=
  match ctorLoop b devices none [] [] with
  | none => none
  | some (custom, svm, calls) =>
    let svm1 := if svm.length > 1 ∧ frontIsCpu svm = true then swapFrontBack svm else svm
    some ({ devices_ := devices, info_ := info, properties_ := none, glenv_ := none,
            customHostAllocDevice_ := custom, svmAllocDevice_ := svm1,
            deviceQueues_ := fun _ => none }, calls)

/-! ## `Context::create` -/

/-- The words (`cl_context_properties`) of a property buffer. -/
def wordsOf : List Element → List Int
  | [] => []
  | e :: rest => e.name :: (e.ptr : Int) :: wordsOf rest

/-- The flag mask tested by `create` before binding. -/
def createBindMask : Nat :=
  D3D10DeviceKhr ||| D3D11DeviceKhr ||| GLDeviceKhr |||
    D3D9DeviceKhr ||| D3D9DeviceEXKhr ||| D3D9DeviceVAKhr

/-- The loop of `create` over all devices: every device is asked to bind,
`result` becomes `CL_INVALID_VALUE` at a failed bind. -/
def bindLoop (info : Info) : List Device → Int → List Call → Int × List Call
  | [], result, calls => (result, calls)
  | d :: rest, result, calls =>
    let calls1 := calls ++ [Call.bindExternalDevice d.id info.type_ info.hDev_ info.hCtx_ false]
    if d.bindExternalDevice info.type_ info.hDev_ info.hCtx_ false = false then
      bindLoop info rest CL_INVALID_VALUE calls1
    else bindLoop info rest result calls1

/-- Name of the OpenGL library `create` loads. -/
def glLibraryName (b : Build) : String :=
  match b.platform with
  | .win32 => "OpenGL32.dll"
  | _ => "libGL.so"

/-- The function `Context::create(properties)`: status returned, context after
the call, calls issued. The `memcpy` of `propertiesSize_` bytes is taken word
by word (`propertiesSize_` is a multiple of the word size whenever `info_`
came from `checkProperties`). -/
def Context.create (b : Build) (env : Env) (c : Context) (properties : Option (List Element)) :
    Int × Context × List Call :=
  let n := c.info_.propertiesSize_ / b.ptrBytes
  if properties.isSome ∧ env.newProperties n = false then
    (CL_OUT_OF_HOST_MEMORY, { c with properties_ := none }, [])
  else
    let c1 : Context :=
      match properties with
      | none => c
      | some p => { c with properties_ := some ((wordsOf p).take n) }
    let bound : Int × List Call :=
      if c1.info_.flags_ &&& createBindMask ≠ 0 then bindLoop c1.info_ c1.devices_ CL_SUCCESS []
      else (CL_SUCCESS, [])
    if bound.1 ≠ CL_SUCCESS then
      if c1.info_.flags_ &&& GLDeviceKhr ≠ 0 then
        (CL_INVALID_GL_SHAREGROUP_REFERENCE_KHR, c1, bound.2)
      else (bound.1, c1, bound.2)
    else if c1.info_.flags_ &&& GLDeviceKhr ≠ 0 ∧ c1.glenv_ = none then
      let h := env.loadLibrary (glLibraryName b)
      let calls1 := bound.2 ++ [Call.loadLibrary (glLibraryName b)]
      if h ≠ 0 ∧ env.newGLFunctions h = true then
        let calls2 := calls1 ++ [Call.glInit h c1.info_.hDev_ c1.info_.hCtx_]
        if env.glInit h c1.info_.hDev_ c1.info_.hCtx_ = false then
          (CL_INVALID_GL_SHAREGROUP_REFERENCE_KHR, { c1 with glenv_ := none }, calls2)
        else (bound.1, { c1 with glenv_ := some h }, calls2)
      else (bound.1, c1, calls1)
    else (bound.1, c1, bound.2)

/-! ## `Context::svmAlloc` -/

/-- The range-for loop of `svmAlloc` over the remaining devices; `front` is
`svmAllocDevice_.front()`, `svmPtrAlloced` the reference address so far. -/
def svmAllocLoop (front : Device) (size alignment flags : Nat) :
    List Device → Nat → List Call → Nat × List Call
  | [], svmPtrAlloced, calls => (svmPtrAlloced, calls)
  | dev :: rest, svmPtrAlloced, calls =>
    if dev.type = CL_DEVICE_TYPE_GPU then
      let tempPtr := dev.svmAlloc size alignment flags
      let calls1 := calls ++ [Call.svmAlloc dev.id size alignment flags]
      let ptr1 := if dev.id = front.id then tempPtr else svmPtrAlloced
      if ptr1 ≠ tempPtr ∨ tempPtr = 0 then (0, calls1)
      else svmAllocLoop front size alignment flags rest ptr1 calls1
    else svmAllocLoop front size alignment flags rest svmPtrAlloced calls

/-- The function `Context::svmAlloc(size, alignment, flags)`: address returned
(`0`: null) and calls issued. `numSVMDev` is the vector size converted to
`unsigned int`. -/
def Context.svmAlloc (env : Env) (c : Context) (size alignment flags : Nat) :
    Nat × List Call :=
  let numSVMDev := c.svmAllocDevice_.length % UINT_MOD
  if numSVMDev < 1 then (0, [])
  else
    match c.svmAllocDevice_ with
    | [] => (0, [])
    | front :: _ =>
      if front.type = CL_DEVICE_TYPE_CPU then
        (env.alignedAllocate size alignment, [Call.alignedAllocate size alignment])
      else svmAllocLoop front size alignment flags c.svmAllocDevice_ 0 []

/-! ## Device-queue registry -/

/-- The entry `deviceQueues_[&dev]` reads: the stored one, or the
default-constructed one. -/
def Context.queueInfo (c : Context) (dev : Device) : DeviceQueueInfo :=
  (c.deviceQueues_ dev.id).getD DeviceQueueInfo.init

/-- The context after `deviceQueues_[&dev]` was written with `i` (the entry
exists from then on). -/
def Context.setQueueInfo (c : Context) (dev : Device) (i : DeviceQueueInfo) : Context :=
  { c with deviceQueues_ := fun k => if k = dev.id then some i else c.deviceQueues_ k }

/-- The function `Context::defDeviceQueue(dev)`. -/
def Context.defDeviceQueue (c : Context) (dev : Device) : Nat :=
  match c.deviceQueues_ dev.id with
  | some i => i.defDeviceQueue_
  | none => 0

/-- The function `Context::isDevQueuePossible(dev)`: its answer and the
context after it (`operator[]` creates the entry). -/
def Context.isDevQueuePossible (c : Context) (dev : Device) : Bool × Context :=
  (decide ((c.queueInfo dev).deviceQueueCnt_ < dev.maxOnDeviceQueues_),
    c.setQueueInfo dev (c.queueInfo dev))

/-- The function `Context::addDeviceQueue(dev, queue, defDevQueue)`. -/
def Context.addDeviceQueue (c : Context) (dev : Device) (queue : Nat) (defDevQueue : Bool) :
    Context :=
  let i := c.queueInfo dev
  let i1 := { i with deviceQueueCnt_ := (i.deviceQueueCnt_ + 1) % UINT_MOD }
  c.setQueueInfo dev (if defDevQueue then { i1 with defDeviceQueue_ := queue } else i1)

/-- The function `Context::removeDeviceQueue(dev, queue)`; `none` when the
`assert` on a zero counter fires. -/
def Context.removeDeviceQueue (b : Build) (c : Context) (dev : Device) (queue : Nat) :
    Option Context :=
  let i := c.queueInfo dev
  if b.NDEBUG = false ∧ i.deviceQueueCnt_ = 0 then none
  else
    let i1 := { i with deviceQueueCnt_ := (i.deviceQueueCnt_ + UINT_MOD - 1) % UINT_MOD }
    some (c.setQueueInfo dev
      (if i1.defDeviceQueue_ = queue then { i1 with defDeviceQueue_ := 0 } else i1))

/-- Live-queue count the registry holds for a device (zero when the device
was never touched). -/
def Context.liveQueues (c : Context) (dev : Device) : Nat :=
  (c.queueInfo dev).deviceQueueCnt_

/-! ## Vocabulary of the property-list claims -/

/-- Keys that have a `case` label in the build. -/
def recognizedKey (b : Build) (k : Int) : Bool :=
  decide (k = CL_CONTEXT_INTEROP_USER_SYNC)
  || (decide (b.platform = .win32) &&
        (decide (k = CL_CONTEXT_D3D10_DEVICE_KHR) || decide (k = CL_CONTEXT_D3D11_DEVICE_KHR)
          || decide (k = CL_CONTEXT_ADAPTER_D3D9_KHR) || decide (k = CL_CONTEXT_ADAPTER_D3D9EX_KHR)
          || decide (k = CL_CONTEXT_ADAPTER_DXVA_KHR) || decide (k = CL_WGL_HDC_KHR)))
  || (decide (b.platform = .linux) && decide (k = CL_GLX_DISPLAY_KHR))
  || (decide (b.platform = .apple) && decide (k = CL_CGL_SHAREGROUP_KHR))
  || decide (k = CL_GL_CONTEXT_KHR)
  || decide (k = CL_CONTEXT_PLATFORM)
  || decide (k = CL_CONTEXT_OFFLINE_DEVICES_AMD)
  || decide (k = CL_CONTEXT_COMMAND_INTERCEPT_CALLBACK_AMD)

/-- A valid recognized pair: a key the build knows with a value its case
accepts, so that the scan moves on to the next pair. -/
def acceptedPair (b : Build) (e : Element) : Bool :=
  decide (e.name = CL_CONTEXT_INTEROP_USER_SYNC)
  || (decide (b.platform = .win32) && decide (e.ptr ≠ 0) &&
        (decide (e.name = CL_CONTEXT_D3D10_DEVICE_KHR)
          || decide (e.name = CL_CONTEXT_D3D11_DEVICE_KHR)
          || decide (e.name = CL_CONTEXT_ADAPTER_D3D9_KHR)
          || decide (e.name = CL_CONTEXT_ADAPTER_D3D9EX_KHR)
          || decide (e.name = CL_CONTEXT_ADAPTER_DXVA_KHR)
          || decide (e.name = CL_WGL_HDC_KHR)))
  || (decide (b.platform = .linux) && decide (e.ptr ≠ 0) && decide (e.name = CL_GLX_DISPLAY_KHR))
  || (decide (e.name = CL_GL_CONTEXT_KHR) && decide (e.ptr ≠ 0))
  || (decide (e.name = CL_CONTEXT_PLATFORM) &&
        (decide (e.ptr = 0) || decide (e.ptr = b.AMD_PLATFORM)))
  || (decide (e.name = CL_CONTEXT_OFFLINE_DEVICES_AMD) && decide (e.ptr = 1))
  || decide (e.name = CL_CONTEXT_COMMAND_INTERCEPT_CALLBACK_AMD)

/-- A 64-bit Linux build with assertions on. -/
def linux64 : Build :=
  { platform := .linux, NDEBUG := false, ptrBytes := 8, AMD_PLATFORM := 4096 }

/-! ## Sample devices and collaborators -/

/-- A GPU-class device with SVM support whose `svmAlloc` answers `0x2000`. -/
def gpuA : Device :=
  { id := 1, type := CL_DEVICE_TYPE_GPU, svmSupport := true, customHostAllocator := false,
    maxOnDeviceQueues_ := 2, isAncestor := fun _ => false,
    bindExternalDevice := fun _ _ _ _ => true, hostAlloc := fun _ _ _ => 0,
    svmAlloc := fun _ _ _ => 0x2000 }

/-- A second GPU-class device with SVM support, same `svmAlloc` answer. -/
def gpuB : Device := { gpuA with id := 2 }

/-- A GPU-class device whose `svmAlloc` answers another address, `0x3000`. -/
def gpuOther : Device := { gpuA with id := 5, svmAlloc := fun _ _ _ => 0x3000 }

/-- A CPU-class device with SVM support. -/
def cpuC : Device := { gpuA with id := 3, type := CL_DEVICE_TYPE_CPU }

/-- A second CPU-class device with SVM support. -/
def cpuD : Device := { gpuA with id := 4, type := CL_DEVICE_TYPE_CPU }

/-- Collaborators whose aligned allocation answers `0x1000`. -/
def sampleEnv : Env :=
  { alignedAllocate := fun _ _ => 0x1000, newProperties := fun _ => true,
    loadLibrary := fun _ => 0, newGLFunctions := fun _ => true, glInit := fun _ _ _ => true }

/-- A context with no devices and zeroed members. -/
def emptyContext : Context :=
  { devices_ := [], info_ := Info.zero, properties_ := none, glenv_ := none,
    customHostAllocDevice_ := none, svmAllocDevice_ := [], deviceQueues_ := fun _ => none }

/-- A context whose unified-memory device list is two GPU-class devices
that answer the same address. -/
def twoGpuContext : Context :=
  { emptyContext with devices_ := [gpuA, gpuB], svmAllocDevice_ := [gpuA, gpuB] }

/-- A context whose unified-memory device list is two GPU-class devices
that answer different addresses. -/
def mismatchContext : Context :=
  { emptyContext with devices_ := [gpuA, gpuOther], svmAllocDevice_ := [gpuA, gpuOther] }

/-- A context whose unified-memory device list has a CPU-class first entry
followed by a GPU-class device. -/
def cpuFirstContext : Context :=
  { emptyContext with devices_ := [cpuC, gpuA], svmAllocDevice_ := [cpuC, gpuA] }

/-! ## Sequences of registry calls -/

/-- One call of the device-queue registry, as a caller issues it. -/
inductive QueueCall where
  | add (dev : Device) (queue : Nat) (defDevQueue : Bool)
  | remove (dev : Device) (queue : Nat)
  | possible (dev : Device)

/-- Address of the device a registry call is for. -/
def QueueCall.devId : QueueCall → Nat
  | .add d _ _ => d.id
  | .remove d _ => d.id
  | .possible d => d.id

/-- Whether the call is an `addDeviceQueue`. -/
def QueueCall.isAdd : QueueCall → Bool
  | .add _ _ _ => true
  | _ => false

/-- Whether the call is a `removeDeviceQueue`. -/
def QueueCall.isRemove : QueueCall → Bool
  | .remove _ _ => true
  | _ => false

/-- The context after one registry call (`none`: the call aborted). -/
def Context.queueStep (b : Build) (c : Context) : QueueCall → Option Context
  | .add d q f => some (c.addDeviceQueue d q f)
  | .remove d q => c.removeDeviceQueue b d q
  | .possible d => some (c.isDevQueuePossible d).2

/-- The context after a sequence of registry calls, issued in order (`none`:
one of them aborted). -/
def Context.queueRun (b : Build) : Context → List QueueCall → Option Context
  | c, [] => some c
  | c, op :: ops =>
    match c.queueStep b op with
    | none => none
    | some c1 => Context.queueRun b c1 ops

/-! ## `Context::~Context` -/

/-- The flag mask tested by the destructor before unbinding. -/
def destructorUnbindMask : Nat :=
  GLDeviceKhr ||| D3D10DeviceKhr ||| D3D11DeviceKhr

/-- What the destructor does: the calls issued to collaborators, in order, and
whether `delete [] properties_` and `delete glenv_` were executed. -/
structure Teardown where
  calls : List Call
  deletedProperties : Bool
  deletedGlenv : Bool
  deriving DecidableEq, Repr

/-- The destructor `Context::~Context()`: unbinds every device when one of the
flags of its mask is set, frees the property copy and the GL environment when
present, then releases every device. -/
def Context.destructor (c : Context) : Teardown :=
  let unbinds : List Call :=
    if c.info_.flags_ &&& destructorUnbindMask ≠ 0 then
      c.devices_.map
        (fun d => Call.unbindExternalDevice d.id c.info_.type_ c.info_.hDev_ c.info_.hCtx_ false)
    else []
  { calls := unbinds ++ c.devices_.map (fun d => Call.release d.id),
    deletedProperties := c.properties_.isSome,
    deletedGlenv := c.glenv_.isSome }

/-! ## `Context::hostAlloc`, `Context::hostFree`, `Context::svmFree` -/

/-- The function `Context::hostAlloc(size, alignment, atomics)`: address
returned and calls issued. -/
def Context.hostAlloc (env : Env) (c : Context) (size alignment : Nat) (atomics : Bool) :
    Nat × List Call :=
  match c.customHostAllocDevice_ with
  | some d => (d.hostAlloc size alignment atomics, [Call.hostAlloc d.id size alignment atomics])
  | none => (env.alignedAllocate size alignment, [Call.alignedAllocate size alignment])

/-- The function `Context::hostFree(ptr)`: calls issued. -/
def Context.hostFree (c : Context) (ptr : Nat) : List Call :=
  match c.customHostAllocDevice_ with
  | some d => [Call.hostFree d.id ptr]
  | none => [Call.alignedDeallocate ptr]

/-- The range-for loop of `svmFree`: every GPU-class device frees `ptr`. -/
def svmFreeLoop (ptr : Nat) : List Device → List Call
  | [] => []
  | dev :: rest =>
    if dev.type = CL_DEVICE_TYPE_GPU then Call.svmFree dev.id ptr :: svmFreeLoop ptr rest
    else svmFreeLoop ptr rest

/-- The function `Context::svmFree(ptr)`: calls issued, or `none` when the
vector is empty and `svmAllocDevice_.front()` has no defined value. -/
def Context.svmFree (c : Context) (ptr : Nat) : Option (List Call) :=
  match c.svmAllocDevice_ with
  | [] => none
  | front :: _ =>
    if front.type = CL_DEVICE_TYPE_CPU then some [Call.alignedDeallocate ptr]
    else some (svmFreeLoop ptr c.svmAllocDevice_)

/-! ## `Context::containsDevice` -/

/-- The loop of `containsDevice` over the remaining member devices. -/
def containsLoop (device : Device) : List Device → Bool
  | [] => false
  | it :: rest =>
    if device.id = it.id ∨ it.isAncestor device.id = true then true
    else containsLoop device rest

/-- The function `Context::containsDevice(device)`. -/
def Context.containsDevice (c : Context) (device : Device) : Bool :=
  containsLoop device c.devices_

/-! ## Vocabulary of the lifetime, binding and registry claims -/

/-- Whether a recorded call is some device's `bindExternalDevice`. -/
def Call.isBind : Call → Bool
  | .bindExternalDevice _ _ _ _ _ => true
  | _ => false

/-- Whether a recorded call is some device's `unbindExternalDevice`. -/
def Call.isUnbind : Call → Bool
  | .unbindExternalDevice _ _ _ _ _ => true
  | _ => false

/-- Number of `retain()` calls on the device at address `id` in a record. -/
def retains (id : Nat) (calls : List Call) : Nat :=
  calls.count (Call.retain id)

/-- Number of `release()` calls on the device at address `id` in a record. -/
def releases (id : Nat) (calls : List Call) : Nat :=
  calls.count (Call.release id)

/-- Number of `addDeviceQueue` calls for the device at address `id`. -/
def queueAdds (id : Nat) (ops : List QueueCall) : Nat :=
  ops.countP (fun op => op.isAdd && decide (op.devId = id))

/-- Number of `removeDeviceQueue` calls for the device at address `id`. -/
def queueRemoves (id : Nat) (ops : List QueueCall) : Nat :=
  ops.countP (fun op => op.isRemove && decide (op.devId = id))

/-- A 64-bit Linux build with `NDEBUG` defined. -/
def release64 : Build :=
  { platform := .linux, NDEBUG := true, ptrBytes := 8, AMD_PLATFORM := 4096 }

/-- A 64-bit Windows build with assertions on. -/
def win64 : Build :=
  { platform := .win32, NDEBUG := false, ptrBytes := 8, AMD_PLATFORM := 4096 }

/-- A device that declares itself the custom host allocator; its `hostAlloc`
answers `0x5000`. -/
def customA : Device :=
  { gpuA with id := 6, customHostAllocator := true, hostAlloc := fun _ _ _ => 0x5000 }

/-- A second device that declares itself the custom host allocator. -/
def customB : Device := { customA with id := 7 }

/-- A device whose `bindExternalDevice` fails. -/
def gpuNoBind : Device := { gpuA with id := 8, bindExternalDevice := fun _ _ _ _ => false }

/-- An accelerator-class device with SVM support, ancestor of the device at
address 2. -/
def accelE : Device :=
  { gpuA with id := 9, type := CL_DEVICE_TYPE_ACCELERATOR, isAncestor := fun k => decide (k = 2) }

/-- Descriptor of the list `[{CL_GL_CONTEXT_KHR, 5}, {0, 0}]`. -/
def glInfo : Info :=
  { Info.zero with flags_ := GLDeviceKhr, type_ := CL_GL_CONTEXT_KHR, hCtx_ := 5,
                   propertiesSize_ := 24 }

/-- Descriptor of the list `[{CL_CONTEXT_ADAPTER_D3D9_KHR, 5}, {0, 0}]` on
Windows. -/
def d3d9Info : Info :=
  { Info.zero with flags_ := D3D9DeviceKhr, type_ := CL_CONTEXT_ADAPTER_D3D9_KHR, hDev_ := 5,
                   propertiesSize_ := 24 }

/-- Collaborators whose OpenGL library loads (handle `0x77`) and whose
environment object fails to initialise. -/
def glInitFailsEnv : Env :=
  { sampleEnv with loadLibrary := fun _ => 0x77, glInit := fun _ _ _ => false }

/-- A context over `[gpuA, gpuB]` that asks for OpenGL interop. -/
def glContext : Context :=
  { emptyContext with devices_ := [gpuA, gpuB], info_ := glInfo }

/-- A context over `[gpuA, gpuNoBind]` that asks for OpenGL interop. -/
def glNoBindContext : Context :=
  { emptyContext with devices_ := [gpuA, gpuNoBind], info_ := glInfo }

/-- A context over `[gpuA, gpuB]` that asks for D3D9 interop. -/
def d3d9Context : Context :=
  { emptyContext with devices_ := [gpuA, gpuB], info_ := d3d9Info }

/-- A context whose designated custom host allocator is `customA`. -/
def customContext : Context :=
  { emptyContext with devices_ := [gpuA, customA], customHostAllocDevice_ := some customA }

/-- A context whose unified-memory device list starts with an
accelerator-class device. -/
def accelFirstContext : Context :=
  { emptyContext with devices_ := [accelE, gpuA], svmAllocDevice_ := [accelE, gpuA] }

/-- The bind calls the claims expect of `create`: none unless a flag of its
mask is set, else one per member device, in list order, with
`validateOnly = false`. -/
def expectedBinds (c : Context) : List Call :=
  if c.info_.flags_ &&& createBindMask ≠ 0 then
    c.devices_.map
      (fun d => Call.bindExternalDevice d.id c.info_.type_ c.info_.hDev_ c.info_.hCtx_ false)
  else []

/-- Whether the `new[]` of the property copy in `create` gives a non-null
result (vacuously so when `properties` is null and nothing is allocated). A
plain `new[]` reports failure by throwing and never gives null, so this holds
on every call of `create` that goes on past the allocation. -/
def copyAllocated (b : Build) (env : Env) (c : Context) (properties : Option (List Element)) :
    Bool :=
  !properties.isSome || env.newProperties (c.info_.propertiesSize_ / b.ptrBytes)

/-! ## Lemmas on `checkProperties` -/

theorem keys_unfold :
    CL_CONTEXT_INTEROP_USER_SYNC = 4229 ∧ CL_CONTEXT_D3D10_DEVICE_KHR = 16404 ∧
    CL_CONTEXT_D3D11_DEVICE_KHR = 16413 ∧ CL_CONTEXT_ADAPTER_D3D9_KHR = 8229 ∧
    CL_CONTEXT_ADAPTER_D3D9EX_KHR = 8230 ∧ CL_CONTEXT_ADAPTER_DXVA_KHR = 8231 ∧
    CL_WGL_HDC_KHR = 8203 ∧ CL_GLX_DISPLAY_KHR = 8202 ∧ CL_CGL_SHAREGROUP_KHR = 8204 ∧
    CL_GL_CONTEXT_KHR = 8200 ∧ CL_CONTEXT_PLATFORM = 4228 ∧
    CL_CONTEXT_OFFLINE_DEVICES_AMD = 16447 ∧
    CL_CONTEXT_COMMAND_INTERCEPT_CALLBACK_AMD = 16445 := by
  refine ⟨rfl, rfl, rfl, rfl, rfl, rfl, rfl, rfl, rfl, rfl, rfl, rfl, rfl⟩

set_option linter.unnecessarySeqFocus false in
theorem switchCase_next_iff (b : Build) (e : Element) (info : Info) :
    (∃ info1, switchCase b e info = .next info1) ↔ acceptedPair b e = true := by
  obtain ⟨k, v⟩ := e
  obtain ⟨h1, h2, h3, h4, h5, h6, h7, h8, h9, h10, h11, h12, h13⟩ := keys_unfold
  unfold switchCase acceptedPair glContextCase d3dCase
  rw [h1, h2, h3, h4, h5, h6, h7, h8, h9, h10, h11, h12, h13]
  dsimp only
  by_cases k1 : k = 4229
  · subst k1; simp
  by_cases k2 : k = 16404
  · subst k2; cases b.platform <;> simp <;> split_ifs <;> simp_all
  by_cases k3 : k = 16413
  · subst k3; cases b.platform <;> simp <;> split_ifs <;> simp_all
  by_cases k4 : k = 8229
  · subst k4; cases b.platform <;> simp <;> split_ifs <;> simp_all
  by_cases k5 : k = 8230
  · subst k5; cases b.platform <;> simp <;> split_ifs <;> simp_all
  by_cases k6 : k = 8231
  · subst k6; cases b.platform <;> simp <;> split_ifs <;> simp_all
  by_cases k7 : k = 8203
  · subst k7; cases b.platform <;> simp <;> split_ifs <;> simp_all
  by_cases k8 : k = 8202
  · subst k8; cases b.platform <;> simp <;> split_ifs <;> simp_all
  by_cases k9 : k = 8204
  · subst k9; cases b.platform <;> simp [Unimplemented]
  by_cases k10 : k = 8200
  · subst k10; simp; split_ifs <;> simp_all
  by_cases k11 : k = 4228
  · subst k11; simp; split_ifs <;> simp_all <;> omega
  by_cases k12 : k = 16447
  · subst k12; simp; split_ifs <;> simp_all
  by_cases k13 : k = 16445
  · subst k13; simp
  simp [k1, k2, k3, k4, k5, k6, k7, k8, k9, k10, k11, k12, k13]

theorem switchCase_unknown (b : Build) (e : Element) (info : Info)
    (h : recognizedKey b e.name = false) :
    switchCase b e info = .ret CL_INVALID_VALUE info := by
  obtain ⟨k, v⟩ := e
  obtain ⟨h1, h2, h3, h4, h5, h6, h7, h8, h9, h10, h11, h12, h13⟩ := keys_unfold
  unfold recognizedKey at h
  unfold switchCase
  rw [h1, h2, h3, h4, h5, h6, h7, h8, h9, h10, h11, h12, h13] at h ⊢
  dsimp only at h ⊢
  cases hp : b.platform <;> simp [hp] at h ⊢ <;> simp [h]

theorem acceptedPair_name_ne_zero (b : Build) (e : Element) (h : acceptedPair b e = true) :
    e.name ≠ 0 := by
  obtain ⟨k, v⟩ := e
  obtain ⟨h1, h2, h3, h4, h5, h6, h7, h8, h9, h10, h11, h12, h13⟩ := keys_unfold
  unfold acceptedPair at h
  simp only [h1, h2, h3, h4, h5, h6, h7, h8, h10, h11, h12, h13] at h
  intro h0
  dsimp only at h h0
  subst h0
  simp at h

theorem checkLoop_accepted_pairs (b : Build) (pre rest : List Element)
    (h : ∀ e ∈ pre, acceptedPair b e = true) (count : Nat) (hc : count < UINT_MOD)
    (info : Info) :
    ∃ info1, checkLoop b (pre ++ rest) count info
      = checkLoop b rest ((count + pre.length) % UINT_MOD) info1 := by
  induction pre generalizing count info with
  | nil =>
    exact ⟨info, by simp [Nat.mod_eq_of_lt hc]⟩
  | cons e pre ih =>
    have he : acceptedPair b e = true := h e (List.mem_cons_self _ _)
    obtain ⟨info1, h1⟩ := (switchCase_next_iff b e info).mpr he
    obtain ⟨info2, h2⟩ := ih (fun x hx => h x (List.mem_cons_of_mem _ hx))
      ((count + 1) % UINT_MOD) (Nat.mod_lt _ (by decide)) info1
    refine ⟨info2, ?_⟩
    have hne := acceptedPair_name_ne_zero b e he
    have hm : ((count + 1) % UINT_MOD + pre.length) % UINT_MOD
        = (count + (pre.length + 1)) % UINT_MOD := by
      unfold UINT_MOD
      omega
    rw [List.cons_append, checkLoop, if_neg hne, h1, List.length_cons, ← hm]
    exact h2

theorem checkLoop_terminator (b : Build) (v : Nat) (rest : List Element) (count : Nat)
    (info : Info) :
    checkLoop b (⟨0, v⟩ :: rest) count info
      = .returned CL_SUCCESS { info with propertiesSize_ := propertiesBytes b count } := by
  simp [checkLoop]

theorem wordsOf_append (xs ys : List Element) :
    wordsOf (xs ++ ys) = wordsOf xs ++ wordsOf ys := by
  induction xs with
  | nil => rfl
  | cons e xs ih => simp [wordsOf, ih]

theorem wordsOf_length (xs : List Element) : (wordsOf xs).length = 2 * xs.length := by
  induction xs with
  | nil => rfl
  | cons e xs ih => simp [wordsOf, ih]; omega

theorem create_properties (b : Build) (env : Env) (c : Context) (p : List Element)
    (h : env.newProperties (c.info_.propertiesSize_ / b.ptrBytes) = true) :
    (c.create b env (some p)).2.1.properties_
      = some ((wordsOf p).take (c.info_.propertiesSize_ / b.ptrBytes)) := by
  unfold Context.create
  simp only [h, Option.isSome_some, true_and]
  split_ifs <;> simp_all

/-! ## Property parsing: claims C1 to C4 -/

/-- C1, as stated, fails: on a 64-bit Linux build the list
`[{0x9999, null}, {0, 0}]`, whose first key has no case label, makes
`checkProperties` return `CL_INVALID_VALUE`, not `CL_INVALID_PROPERTY`. -/
theorem checkProperties_unknown_key_not_invalid_property :
    recognizedKey linux64 0x9999 = false ∧
    (checkProperties linux64 (some [⟨0x9999, 0⟩, ⟨0, 0⟩]) Info.zero).code
      = some CL_INVALID_VALUE ∧
    (checkProperties linux64 (some [⟨0x9999, 0⟩, ⟨0, 0⟩]) Info.zero).code
      ≠ some CL_INVALID_PROPERTY := by
  decide

/-- C1, amended: for every property list that holds a pair whose non-zero key
is not a recognized property key of the build, every pair before it being a
valid recognized pair, `checkProperties` returns `CL_INVALID_VALUE`, at
whatever position the unknown key stands. -/
theorem checkProperties_unknown_key_invalid_value (b : Build) (pre rest : List Element)
    (e : Element) (info0 : Info)
    (hpre : ∀ x ∈ pre, acceptedPair b x = true)
    (hkey : recognizedKey b e.name = false) (hnz : e.name ≠ 0) :
    (checkProperties b (some (pre ++ e :: rest)) info0).code = some CL_INVALID_VALUE := by
  obtain ⟨info1, h1⟩ :=
    checkLoop_accepted_pairs b pre (e :: rest) hpre 0 (by decide) Info.zero
  simp only [checkProperties, h1, checkLoop, if_neg hnz, switchCase_unknown b e info1 hkey,
    ParseResult.code]

/-- Witness of C1 amended: one valid platform pair, then the unknown key
`0x9999`, then the terminator. -/
theorem checkProperties_unknown_key_invalid_value_witness :
    (checkProperties linux64
        (some ([⟨CL_CONTEXT_PLATFORM, 0⟩] ++ ⟨0x9999, 7⟩ :: [⟨0, 0⟩])) Info.zero).code
      = some CL_INVALID_VALUE :=
  checkProperties_unknown_key_invalid_value linux64 [⟨CL_CONTEXT_PLATFORM, 0⟩] [⟨0, 0⟩]
    ⟨0x9999, 7⟩ Info.zero (by decide) (by decide) (by decide)

/-- C2: for every property list in which every pair before an OpenGL-context
pair (key `CL_GL_CONTEXT_KHR`) is a valid recognized pair and that pair has a
null value, `checkProperties` returns
`CL_INVALID_GL_SHAREGROUP_REFERENCE_KHR`. -/
theorem checkProperties_gl_context_null (b : Build) (pre rest : List Element) (info0 : Info)
    (hpre : ∀ x ∈ pre, acceptedPair b x = true) :
    (checkProperties b (some (pre ++ ⟨CL_GL_CONTEXT_KHR, 0⟩ :: rest)) info0).code
      = some CL_INVALID_GL_SHAREGROUP_REFERENCE_KHR := by
  obtain ⟨info1, h1⟩ :=
    checkLoop_accepted_pairs b pre (⟨CL_GL_CONTEXT_KHR, 0⟩ :: rest) hpre 0 (by decide)
      Info.zero
  have hs : switchCase b ⟨CL_GL_CONTEXT_KHR, 0⟩ info1
      = .ret CL_INVALID_GL_SHAREGROUP_REFERENCE_KHR info1 := by
    obtain ⟨h1, h2, h3, h4, h5, h6, h7, h8, h9, h10, h11, h12, h13⟩ := keys_unfold
    unfold switchCase glContextCase
    simp only [h1, h2, h3, h4, h5, h6, h7, h8, h9, h10, h11, h12, h13]
    cases hp : b.platform <;> simp
  have hnz : (⟨CL_GL_CONTEXT_KHR, 0⟩ : Element).name ≠ 0 := by decide
  simp only [checkProperties, h1, checkLoop, if_neg hnz, hs, ParseResult.code]

/-- Witness of C2: the list `[{CL_GL_CONTEXT_KHR, null}, {0, 0}]`. -/
theorem checkProperties_gl_context_null_witness :
    (checkProperties linux64 (some ([] ++ ⟨CL_GL_CONTEXT_KHR, 0⟩ :: [⟨0, 0⟩])) Info.zero).code
      = some CL_INVALID_GL_SHAREGROUP_REFERENCE_KHR :=
  checkProperties_gl_context_null linux64 [] [⟨0, 0⟩] Info.zero (by decide)

/-- C3: `checkProperties` on a null property pointer returns `CL_SUCCESS` and
leaves a descriptor with `propertiesSize_ = 0`, no flag, a zero type tag, null
device and context handles and no intercept callback, whatever the descriptor
held before. -/
theorem checkProperties_null (b : Build) (info0 : Info) :
    ∃ info, checkProperties b none info0 = .returned CL_SUCCESS info ∧
      info.propertiesSize_ = 0 ∧ info.flags_ = 0 ∧ info.type_ = 0 ∧
      info.hDev_ = 0 ∧ info.hCtx_ = 0 ∧ info.commandIntercept_ = 0 :=
  ⟨Info.zero, rfl, rfl, rfl, rfl, rfl, rfl, rfl⟩

/-- C4, as stated, fails: the pair counter is a 32-bit `uint`. On a 64-bit
build a list of `2^32` accepted pairs `{CL_CONTEXT_PLATFORM, null}` followed by
the terminator leaves `propertiesSize_ = 8`, the size of one word, and not
`2^32 * 16 + 8`. -/
theorem checkProperties_counter_wraps :
    (∀ e ∈ List.replicate (2 ^ 32) (⟨CL_CONTEXT_PLATFORM, 0⟩ : Element),
        acceptedPair linux64 e = true) ∧
    (checkProperties linux64
        (some (List.replicate (2 ^ 32) ⟨CL_CONTEXT_PLATFORM, 0⟩ ++ [⟨0, 0⟩])) Info.zero).code
      = some CL_SUCCESS ∧
    (checkProperties linux64
        (some (List.replicate (2 ^ 32) ⟨CL_CONTEXT_PLATFORM, 0⟩ ++ [⟨0, 0⟩])) Info.zero).info.map
          Info.propertiesSize_
      = some 8 ∧
    (checkProperties linux64
        (some (List.replicate (2 ^ 32) ⟨CL_CONTEXT_PLATFORM, 0⟩ ++ [⟨0, 0⟩])) Info.zero).info.map
          Info.propertiesSize_
      ≠ some (2 ^ 32 * (2 * linux64.ptrBytes) + linux64.ptrBytes) := by
  have hacc : ∀ e ∈ List.replicate (2 ^ 32) (⟨CL_CONTEXT_PLATFORM, 0⟩ : Element),
      acceptedPair linux64 e = true := by
    intro e he
    rw [List.eq_of_mem_replicate he]
    decide
  obtain ⟨info1, h1⟩ :=
    checkLoop_accepted_pairs linux64 _ [⟨0, 0⟩] hacc 0 (by decide) Info.zero
  have hlen : (0 + (List.replicate (2 ^ 32) (⟨CL_CONTEXT_PLATFORM, 0⟩ : Element)).length)
      % UINT_MOD = 0 := by
    rw [List.length_replicate]
    decide
  rw [hlen, checkLoop_terminator] at h1
  have hb : propertiesBytes linux64 0 = 8 := by decide
  rw [hb] at h1
  have hcp : checkProperties linux64
      (some (List.replicate (2 ^ 32) ⟨CL_CONTEXT_PLATFORM, 0⟩ ++ [⟨0, 0⟩])) Info.zero
      = .returned CL_SUCCESS { info1 with propertiesSize_ := 8 } := h1
  rw [hcp]
  refine ⟨hacc, rfl, rfl, ?_⟩
  show some 8 ≠ some (2 ^ 32 * (2 * linux64.ptrBytes) + linux64.ptrBytes)
  decide

/-- C4, amended: for every property list made of `n` accepted pairs followed
by the zero-key terminator, with `n < 2^32` (the range of the `uint` pair
counter) and a byte size `(2n+1) * w` that fits `size_t` (`w` the word size),
`checkProperties` returns `CL_SUCCESS` and sets `propertiesSize_` to
`n * (2 * w) + w`, exactly `2n+1` words, and the copy `create` makes (when its
allocation succeeds) holds the words of the `n` pairs, then the zero key, and
nothing more. -/
theorem checkProperties_size (b : Build) (pairs rest : List Element) (v : Nat) (info0 : Info)
    (hpairs : ∀ e ∈ pairs, acceptedPair b e = true)
    (hn : pairs.length < UINT_MOD)
    (hw : 0 < b.ptrBytes)
    (hfit : (2 * pairs.length + 1) * b.ptrBytes < b.sizeMod) :
    ∃ info, checkProperties b (some (pairs ++ ⟨0, v⟩ :: rest)) info0 = .returned CL_SUCCESS info ∧
      info.propertiesSize_ = pairs.length * (2 * b.ptrBytes) + b.ptrBytes ∧
      info.propertiesSize_ = (2 * pairs.length + 1) * b.ptrBytes ∧
      ∀ (env : Env) (c : Context), c.info_ = info →
        env.newProperties (2 * pairs.length + 1) = true →
        (c.create b env (some (pairs ++ ⟨0, v⟩ :: rest))).2.1.properties_
          = some (wordsOf pairs ++ [0]) := by
  obtain ⟨info1, h1⟩ :=
    checkLoop_accepted_pairs b pairs (⟨0, v⟩ :: rest) hpairs 0 (by decide) Info.zero
  rw [Nat.zero_add, Nat.mod_eq_of_lt hn, checkLoop_terminator] at h1
  have hsz : propertiesBytes b pairs.length = (2 * pairs.length + 1) * b.ptrBytes := by
    unfold propertiesBytes
    have : pairs.length * (2 * b.ptrBytes) + b.ptrBytes = (2 * pairs.length + 1) * b.ptrBytes := by
      ring
    rw [this, Nat.mod_eq_of_lt hfit]
  refine ⟨_, by simpa only [checkProperties] using h1, ?_, ?_, ?_⟩
  · show propertiesBytes b pairs.length = _
    rw [hsz]; ring
  · exact hsz
  · intro env c hc hnew
    have hdiv : c.info_.propertiesSize_ / b.ptrBytes = 2 * pairs.length + 1 := by
      rw [hc]
      show propertiesBytes b pairs.length / b.ptrBytes = _
      rw [hsz, Nat.mul_div_cancel _ hw]
    rw [create_properties b env c _ (by rw [hdiv]; exact hnew), hdiv, wordsOf_append]
    have hl : 2 * pairs.length + 1 = (wordsOf pairs).length + 1 := by rw [wordsOf_length]
    rw [hl, List.take_append]
    simp [wordsOf]

/-- Witness of C4 amended: two accepted pairs and the terminator on a 64-bit
Linux build, 40 bytes. -/
theorem checkProperties_size_witness :
    ∃ info, checkProperties linux64
        (some ([⟨CL_GL_CONTEXT_KHR, 5⟩, ⟨CL_CONTEXT_PLATFORM, 0⟩] ++ ⟨0, 0⟩ :: [])) Info.zero
          = .returned CL_SUCCESS info ∧
      info.propertiesSize_ = 2 * (2 * 8) + 8 ∧
      info.propertiesSize_ = (2 * 2 + 1) * 8 ∧
      ∀ (env : Env) (c : Context), c.info_ = info →
        env.newProperties (2 * 2 + 1) = true →
        (c.create linux64 env
            (some ([⟨CL_GL_CONTEXT_KHR, 5⟩, ⟨CL_CONTEXT_PLATFORM, 0⟩] ++ ⟨0, 0⟩ :: []))).2.1.properties_
          = some (wordsOf [⟨CL_GL_CONTEXT_KHR, 5⟩, ⟨CL_CONTEXT_PLATFORM, 0⟩] ++ [0]) :=
  checkProperties_size linux64 [⟨CL_GL_CONTEXT_KHR, 5⟩, ⟨CL_CONTEXT_PLATFORM, 0⟩] [] 0 Info.zero
    (by decide) (by decide) (by decide) (by decide)

/-! ## Lemmas on the constructor -/

theorem ctorLoop_some (b : Build) (ds : List Device) (custom : Option Device)
    (svm : List Device) (calls : List Call) (r : Option Device × List Device × List Call)
    (h : ctorLoop b ds custom svm calls = some r) :
    r.2.1 = svm ++ ds.filter (fun d => d.svmSupport) := by
  induction ds generalizing custom svm calls with
  | nil =>
    simp only [ctorLoop, Option.some.injEq] at h
    simp [← h]
  | cons d ds ih =>
    unfold ctorLoop at h
    dsimp only at h
    cases hs : d.svmSupport <;> cases hc : d.customHostAllocator <;>
      simp only [hs, hc, if_true, if_false, Bool.false_eq_true] at h
    · rw [ih _ _ _ h]; simp [hs]
    · split_ifs at h
      rw [ih _ _ _ h]; simp [hs]
    · rw [ih _ _ _ h]; simp [hs]
    · split_ifs at h
      rw [ih _ _ _ h]; simp [hs]

theorem ctorLoop_none (b : Build) (ds : List Device) (custom : Option Device)
    (svm : List Device) (calls : List Call)
    (h : ctorLoop b ds custom svm calls = none) :
    b.NDEBUG = false ∧
      2 ≤ (ds.filter (fun d => d.customHostAllocator)).length + custom.isSome.toNat := by
  induction ds generalizing custom svm calls with
  | nil => simp [ctorLoop] at h
  | cons d ds ih =>
    unfold ctorLoop at h
    dsimp only at h
    cases hc : d.customHostAllocator <;>
      simp only [hc, if_true, if_false, Bool.false_eq_true] at h
    · have h4 := ih _ _ _ h
      refine ⟨h4.1, ?_⟩
      simpa [hc] using h4.2
    · by_cases h2 : b.NDEBUG = false ∧ custom.isSome = true
      · refine ⟨h2.1, ?_⟩
        simp [hc, h2.2]
      · rw [if_neg h2] at h
        have h4 := ih _ _ _ h
        refine ⟨h4.1, ?_⟩
        have h5 := h4.2
        simp only [Option.isSome_some, Bool.toNat_true] at h5
        simp only [List.filter_cons, hc, if_true, List.length_cons]
        omega

theorem swapFrontBack_length (l : List Device) : (swapFrontBack l).length = l.length := by
  cases l with
  | nil => rfl
  | cons f rest =>
    unfold swapFrontBack
    cases h : rest.getLast? with
    | none =>
      rw [List.getLast?_eq_none_iff] at h
      simp [h]
    | some bk => simp only [h, List.length_set, List.length_cons]

theorem swapFrontBack_getElem? (l : List Device) (h : 1 < l.length) (i : Nat)
    (hi : i < l.length) :
    (swapFrontBack l)[i]?
      = l[if i = 0 then l.length - 1 else if i = l.length - 1 then 0 else i]? := by
  cases l with
  | nil => simp at h
  | cons f rest =>
    unfold swapFrontBack
    simp only [List.length_cons] at h hi ⊢
    cases hl : rest.getLast? with
    | none =>
      rw [List.getLast?_eq_none_iff] at hl
      simp [hl] at h
    | some bk =>
      dsimp only
      rw [List.getLast?_eq_getElem?] at hl
      rw [List.getElem?_set]
      by_cases h0 : i = 0
      · subst h0
        have : rest.length ≠ 0 := by omega
        simp only [this, if_false, if_true, List.getElem?_cons_zero, Nat.add_sub_cancel]
        obtain ⟨k, hk⟩ : ∃ k, rest.length = k + 1 := ⟨rest.length - 1, by omega⟩
        rw [hk, List.getElem?_cons_succ, ← hl, hk]
        rfl
      · by_cases h1 : i = rest.length
        · subst h1
          simp [h0]
        · have h2 : ¬ rest.length = i := fun e => h1 e.symm
          have h3 : ¬ i = rest.length + 1 - 1 := by omega
          simp only [h2, h0, h3, if_false]
          obtain ⟨k, hk⟩ : ∃ k, i = k + 1 := ⟨i - 1, by omega⟩
          subst hk
          simp

theorem frontIsCpu_iff (l : List Device) :
    frontIsCpu l = true ↔ l.head?.map Device.type = some CL_DEVICE_TYPE_CPU := by
  cases l <;> simp [frontIsCpu]

/-! ## Unified-memory device list: claims C5 and C6 -/

/-- C5: for every input device list, either the constructor stops on its
assertion (only in a build with assertions, on two or more custom host
allocators) or the unified-memory device list it builds is the input devices
that report SVM support, in input order, with first and last entries exchanged
exactly when that list has more than one entry and a CPU-class first entry,
every other position untouched; `[GPU_A, GPU_B, CPU_C]` is kept as is and
`[CPU_C, GPU_A]` becomes `[GPU_A, CPU_C]`. -/
theorem Context_new_svmAllocDevice (b : Build) (devices : List Device) (info : Info) :
    (match Context.new b devices info with
      | none => b.NDEBUG = false ∧
          2 ≤ (devices.filter (fun d => d.customHostAllocator)).length
      | some r =>
        r.1.svmAllocDevice_.length = (devices.filter (fun d => d.svmSupport)).length ∧
        if 1 < (devices.filter (fun d => d.svmSupport)).length ∧
            (devices.filter (fun d => d.svmSupport)).head?.map Device.type
              = some CL_DEVICE_TYPE_CPU then
          ∀ i : Fin (devices.filter (fun d => d.svmSupport)).length,
            r.1.svmAllocDevice_[i.val]?
              = (devices.filter (fun d => d.svmSupport))[
                  if i.val = 0 then (devices.filter (fun d => d.svmSupport)).length - 1
                  else if i.val = (devices.filter (fun d => d.svmSupport)).length - 1 then 0
                  else i.val]?
        else r.1.svmAllocDevice_ = devices.filter (fun d => d.svmSupport)) ∧
    (Context.new b [gpuA, gpuB, cpuC] info).map (fun r => r.1.svmAllocDevice_)
      = some [gpuA, gpuB, cpuC] ∧
    (Context.new b [cpuC, gpuA] info).map (fun r => r.1.svmAllocDevice_)
      = some [gpuA, cpuC] := by
  refine ⟨?_, rfl, rfl⟩
  unfold Context.new
  cases h : ctorLoop b devices none [] [] with
  | none =>
    have := ctorLoop_none b devices none [] [] h
    simpa using this
  | some r =>
    obtain ⟨custom, svm, calls⟩ := r
    have hs : svm = devices.filter (fun d => d.svmSupport) := by
      simpa using ctorLoop_some b devices none [] [] _ h
    subst hs
    clear h
    dsimp only
    generalize List.filter (fun d => d.svmSupport) devices = S
    by_cases hc : 1 < S.length ∧ S.head?.map Device.type = some CL_DEVICE_TYPE_CPU
    · have hc2 : S.length > 1 ∧ frontIsCpu S = true := ⟨hc.1, (frontIsCpu_iff S).mpr hc.2⟩
      simp only [if_pos hc, if_pos hc2]
      exact ⟨swapFrontBack_length _, fun i => swapFrontBack_getElem? _ hc.1 i.val i.isLt⟩
    · have hc2 : ¬ (S.length > 1 ∧ frontIsCpu S = true) :=
        fun h => hc ⟨h.1, (frontIsCpu_iff S).mp h.2⟩
      rw [if_neg hc, if_neg hc2]
      exact ⟨rfl, rfl⟩

/-- C6 fails on the code at `[CPU_C, GPU_A, CPU_D]`, all three reporting SVM
support: the constructor exchanges first and last and the list becomes
`[CPU_D, GPU_A, CPU_C]`, whose first entry is still CPU-class, so `svmAlloc`
takes the plain host allocation and asks no device. -/
theorem Context_new_front_stays_cpu (b : Build) (info : Info) (env : Env) :
    ∃ c calls, Context.new b [cpuC, gpuA, cpuD] info = some (c, calls) ∧
      c.svmAllocDevice_ = [cpuD, gpuA, cpuC] ∧
      c.svmAllocDevice_.head?.map Device.type = some CL_DEVICE_TYPE_CPU ∧
      c.svmAlloc env 4096 256 0
        = (env.alignedAllocate 4096 256, [Call.alignedAllocate 4096 256]) :=
  ⟨_, _, rfl, rfl, rfl, rfl⟩

/-! ## Shared virtual memory allocation: claims C7 and C8 -/

theorem svmAllocLoop_tail (front : Device) (size alignment flags : Nat) (l : List Device)
    (p : Nat) (calls : List Call)
    (hid : ∀ d ∈ l, d.id ≠ front.id) (hp : p ≠ 0) :
    ((∀ d ∈ l, d.type = CL_DEVICE_TYPE_GPU → d.svmAlloc size alignment flags = p) ∧
        (svmAllocLoop front size alignment flags l p calls).1 = p) ∨
    ((∃ d ∈ l, d.type = CL_DEVICE_TYPE_GPU ∧ d.svmAlloc size alignment flags ≠ p) ∧
        (svmAllocLoop front size alignment flags l p calls).1 = 0) := by
  induction l generalizing calls with
  | nil => exact Or.inl ⟨by simp, rfl⟩
  | cons d l ih =>
    have hd : d.id ≠ front.id := hid d (List.mem_cons_self _ _)
    have hl : ∀ x ∈ l, x.id ≠ front.id := fun x hx => hid x (List.mem_cons_of_mem _ hx)
    unfold svmAllocLoop
    by_cases hg : d.type = CL_DEVICE_TYPE_GPU
    · simp only [hg, if_true, hd, if_false]
      by_cases hq : d.svmAlloc size alignment flags = p
      · have hno : ¬ (p ≠ d.svmAlloc size alignment flags ∨ d.svmAlloc size alignment flags = 0) := by
          rw [hq]; simp [hp]
        rw [if_neg hno]
        rcases ih (calls ++ [Call.svmAlloc d.id size alignment flags]) hl with h | h
        · left
          refine ⟨?_, h.2⟩
          intro x hx hxg
          rcases List.mem_cons.mp hx with rfl | hx
          · exact hq
          · exact h.1 x hx hxg
        · right
          obtain ⟨⟨x, hx, hxg, hxp⟩, h2⟩ := h
          exact ⟨⟨x, List.mem_cons_of_mem _ hx, hxg, hxp⟩, h2⟩
      · have hyes : p ≠ d.svmAlloc size alignment flags ∨ d.svmAlloc size alignment flags = 0 :=
          Or.inl (fun e => hq e.symm)
        rw [if_pos hyes]
        right
        exact ⟨⟨d, List.mem_cons_self _ _, hg, hq⟩, rfl⟩
    · simp only [hg, if_false]
      rcases ih calls hl with h | h
      · left
        refine ⟨?_, h.2⟩
        intro x hx hxg
        rcases List.mem_cons.mp hx with rfl | hx
        · exact absurd hxg hg
        · exact h.1 x hx hxg
      · right
        obtain ⟨⟨x, hx, hxg, hxp⟩, h2⟩ := h
        exact ⟨⟨x, List.mem_cons_of_mem _ hx, hxg, hxp⟩, h2⟩

theorem svmAlloc_not_cpu (env : Env) (c : Context) (size alignment flags : Nat)
    (front : Device) (rest : List Device)
    (hl : c.svmAllocDevice_ = front :: rest) (hf : front.type ≠ CL_DEVICE_TYPE_CPU)
    (hlen : c.svmAllocDevice_.length < UINT_MOD) :
    c.svmAlloc env size alignment flags
      = svmAllocLoop front size alignment flags (front :: rest) 0 [] := by
  have hne : ¬ (c.svmAllocDevice_.length % UINT_MOD < 1) := by
    rw [Nat.mod_eq_of_lt hlen, hl]
    simp
  unfold Context.svmAlloc
  rw [if_neg hne, hl]
  simp only [hf, if_false]

theorem svmAlloc_gpu_front (env : Env) (c : Context) (size alignment flags : Nat)
    (front : Device) (rest : List Device)
    (hl : c.svmAllocDevice_ = front :: rest) (hf : front.type = CL_DEVICE_TYPE_GPU)
    (hlen : c.svmAllocDevice_.length < UINT_MOD) :
    (c.svmAlloc env size alignment flags).1
      = if front.svmAlloc size alignment flags = 0 then 0
        else (svmAllocLoop front size alignment flags rest (front.svmAlloc size alignment flags)
                [Call.svmAlloc front.id size alignment flags]).1 := by
  have hcpu : front.type ≠ CL_DEVICE_TYPE_CPU := by
    rw [hf]; decide
  rw [svmAlloc_not_cpu env c size alignment flags front rest hl hcpu hlen, svmAllocLoop]
  simp only [hf, if_true, List.nil_append, ne_eq, not_true_eq_false, false_or]
  by_cases h0 : front.svmAlloc size alignment flags = 0
  · simp [h0]
  · simp [h0]

/-- C7: for every context whose unified-memory device list has a GPU-class
first entry and no repeated device (and a length the `unsigned int` that
receives it can hold), and every request, `svmAlloc` returns a non-null
address `p` if and only if every GPU-class device of the list answers `p` to
the request; if some GPU-class device answers null or an address other than
the first device's, `svmAlloc` returns null. -/
theorem svmAlloc_gpu_agreement (env : Env) (c : Context) (size alignment flags : Nat)
    (front : Device) (rest : List Device)
    (hl : c.svmAllocDevice_ = front :: rest) (hf : front.type = CL_DEVICE_TYPE_GPU)
    (hnd : (c.svmAllocDevice_.map Device.id).Nodup)
    (hlen : c.svmAllocDevice_.length < UINT_MOD) :
    (∀ p, p ≠ 0 →
      ((c.svmAlloc env size alignment flags).1 = p ↔
        ∀ d ∈ c.svmAllocDevice_, d.type = CL_DEVICE_TYPE_GPU →
          d.svmAlloc size alignment flags = p)) ∧
    ((∃ d ∈ c.svmAllocDevice_, d.type = CL_DEVICE_TYPE_GPU ∧
        (d.svmAlloc size alignment flags = 0 ∨
          d.svmAlloc size alignment flags ≠ front.svmAlloc size alignment flags)) →
      (c.svmAlloc env size alignment flags).1 = 0) := by
  have hres := svmAlloc_gpu_front env c size alignment flags front rest hl hf hlen
  have hid : ∀ d ∈ rest, d.id ≠ front.id := by
    rw [hl, List.map_cons, List.nodup_cons] at hnd
    intro d hd e
    exact hnd.1 (e ▸ List.mem_map_of_mem Device.id hd)
  rw [hl]
  by_cases h0 : front.svmAlloc size alignment flags = 0
  · rw [if_pos h0] at hres
    constructor
    · intro p hp
      constructor
      · intro h; exact absurd (hres.symm.trans h).symm hp
      · intro h
        exact absurd ((h front (List.mem_cons_self _ _) hf).symm.trans h0) hp
    · intro _; exact hres
  · rw [if_neg h0] at hres
    rcases svmAllocLoop_tail front size alignment flags rest _
        [Call.svmAlloc front.id size alignment flags] hid h0 with h | h
    · rw [h.2] at hres
      constructor
      · intro p hp
        constructor
        · intro hp2 d hd hg
          rw [hres] at hp2
          rcases List.mem_cons.mp hd with rfl | hd
          · exact hp2
          · rw [h.1 d hd hg]; exact hp2
        · intro hall
          rw [hres]
          exact hall front (List.mem_cons_self _ _) hf
      · rintro ⟨d, hd, hg, hbad⟩
        exfalso
        rcases List.mem_cons.mp hd with rfl | hd
        · rcases hbad with hb | hb
          · exact h0 hb
          · exact hb rfl
        · rcases hbad with hb | hb
          · exact h0 ((h.1 d hd hg).symm.trans hb)
          · exact hb (h.1 d hd hg)
    · rw [h.2] at hres
      obtain ⟨⟨x, hx, hxg, hxp⟩, _⟩ := h
      constructor
      · intro p hp
        constructor
        · intro hp2
          exact absurd (hres.symm.trans hp2).symm hp
        · intro hall
          exfalso
          apply hxp
          rw [hall x (List.mem_cons_of_mem _ hx) hxg,
            hall front (List.mem_cons_self _ _) hf]
      · intro _; exact hres

/-- Witness of C7: two GPU devices, size 4096, alignment 256. When both answer
`0x2000` the call returns `0x2000`; when the second answers `0x3000` the call
returns null. -/
theorem svmAlloc_gpu_agreement_witness :
    (twoGpuContext.svmAlloc sampleEnv 4096 256 0).1 = 0x2000 ∧
    (mismatchContext.svmAlloc sampleEnv 4096 256 0).1 = 0 :=
  ⟨((svmAlloc_gpu_agreement sampleEnv twoGpuContext 4096 256 0 gpuA [gpuB] rfl rfl
        (by decide) (by decide)).1 0x2000 (by decide)).mpr (by decide),
   (svmAlloc_gpu_agreement sampleEnv mismatchContext 4096 256 0 gpuA [gpuOther] rfl rfl
        (by decide) (by decide)).2 ⟨gpuOther, List.Mem.tail _ (List.Mem.head _), rfl, Or.inr (by decide)⟩⟩

/-- C8: for every context whose unified-memory device list is non-empty with
a CPU-class first entry (and a length the `unsigned int` that receives it can
hold), `svmAlloc(size, alignment, flags)` returns exactly the result of the
generic aligned allocation for `(size, alignment)`, issues that one call and
no device's `svmAlloc`, whatever devices follow in the list. -/
theorem svmAlloc_cpu_front (env : Env) (c : Context) (size alignment flags : Nat)
    (front : Device) (rest : List Device)
    (hl : c.svmAllocDevice_ = front :: rest) (hf : front.type = CL_DEVICE_TYPE_CPU)
    (hlen : c.svmAllocDevice_.length < UINT_MOD) :
    c.svmAlloc env size alignment flags
      = (env.alignedAllocate size alignment, [Call.alignedAllocate size alignment]) ∧
    ∀ call ∈ (c.svmAlloc env size alignment flags).2, call.isSvmAlloc = false := by
  have hne : ¬ (c.svmAllocDevice_.length % UINT_MOD < 1) := by
    rw [Nat.mod_eq_of_lt hlen, hl]
    simp
  have h : c.svmAlloc env size alignment flags
      = (env.alignedAllocate size alignment, [Call.alignedAllocate size alignment]) := by
    unfold Context.svmAlloc
    rw [if_neg hne, hl]
    simp only [hf, if_true]
  refine ⟨h, ?_⟩
  rw [h]
  intro call hc
  rw [List.mem_singleton.mp hc]
  rfl

/-- Witness of C8: a CPU-class device first, a GPU-class device after it. -/
theorem svmAlloc_cpu_front_witness :
    cpuFirstContext.svmAlloc sampleEnv 4096 256 0
      = (sampleEnv.alignedAllocate 4096 256, [Call.alignedAllocate 4096 256]) ∧
    ∀ call ∈ (cpuFirstContext.svmAlloc sampleEnv 4096 256 0).2, call.isSvmAlloc = false :=
  svmAlloc_cpu_front sampleEnv cpuFirstContext 4096 256 0 cpuC [gpuA] rfl rfl (by decide)

/-! ## Device-queue registry: claims C9 and C10 -/

theorem queueInfo_setQueueInfo (c : Context) (dev : Device) (i : DeviceQueueInfo) :
    (c.setQueueInfo dev i).queueInfo dev = i := by
  simp [Context.queueInfo, Context.setQueueInfo]

theorem liveQueues_addDeviceQueue (c : Context) (dev : Device) (queue : Nat) (f : Bool) :
    (c.addDeviceQueue dev queue f).liveQueues dev = (c.liveQueues dev + 1) % UINT_MOD := by
  unfold Context.addDeviceQueue Context.liveQueues
  rw [queueInfo_setQueueInfo]
  cases f <;> rfl

theorem isDevQueuePossible_fst (c : Context) (dev : Device) :
    (c.isDevQueuePossible dev).1 = decide (c.liveQueues dev < dev.maxOnDeviceQueues_) := rfl

theorem liveQueues_isDevQueuePossible (c : Context) (dev : Device) :
    (c.isDevQueuePossible dev).2.liveQueues dev = c.liveQueues dev := by
  unfold Context.isDevQueuePossible Context.liveQueues
  rw [queueInfo_setQueueInfo]

theorem removeDeviceQueue_live (b : Build) (c : Context) (dev : Device) (queue : Nat)
    (h : 0 < c.liveQueues dev) :
    ∃ c1, c.removeDeviceQueue b dev queue = some c1 ∧
      c1.liveQueues dev = (c.liveQueues dev + UINT_MOD - 1) % UINT_MOD ∧
      (c1.queueInfo dev).defDeviceQueue_
        = (if (c.queueInfo dev).defDeviceQueue_ = queue then 0
           else (c.queueInfo dev).defDeviceQueue_) := by
  have hne : ¬ (b.NDEBUG = false ∧ (c.queueInfo dev).deviceQueueCnt_ = 0) := by
    intro hh
    unfold Context.liveQueues at h
    omega
  unfold Context.removeDeviceQueue
  simp only [hne, if_false]
  refine ⟨_, rfl, ?_, ?_⟩
  · unfold Context.liveQueues
    rw [queueInfo_setQueueInfo]
    split_ifs <;> rfl
  · rw [queueInfo_setQueueInfo]
    split_ifs <;> rfl

theorem defDeviceQueue_eq (c : Context) (dev : Device) :
    c.defDeviceQueue dev = (c.queueInfo dev).defDeviceQueue_ := by
  unfold Context.queueInfo Context.defDeviceQueue
  cases c.deviceQueues_ dev.id <;> rfl

theorem liveQueues_setQueueInfo_other (c : Context) (d dev : Device) (i : DeviceQueueInfo)
    (h : d.id ≠ dev.id) : (c.setQueueInfo d i).liveQueues dev = c.liveQueues dev := by
  simp [Context.liveQueues, Context.queueInfo, Context.setQueueInfo, Ne.symm h]

theorem liveQueues_queueStep (b : Build) (c c1 : Context) (dev : Device) (op : QueueCall)
    (hrem : op.isRemove = true → op.devId ≠ dev.id)
    (h : c.queueStep b op = some c1) :
    c1.liveQueues dev
      = if op.isAdd = true ∧ op.devId = dev.id then (c.liveQueues dev + 1) % UINT_MOD
        else c.liveQueues dev := by
  cases op with
  | add d q f =>
    simp only [Context.queueStep, Option.some.injEq] at h
    subst h
    by_cases hd : d.id = dev.id
    · simp only [QueueCall.isAdd, QueueCall.devId, hd, and_self, if_true]
      unfold Context.addDeviceQueue Context.liveQueues Context.queueInfo Context.setQueueInfo
      simp only [hd, if_true, Option.getD_some]
      cases f <;> rfl
    · simp only [QueueCall.isAdd, QueueCall.devId, hd, and_false, if_false]
      exact liveQueues_setQueueInfo_other _ _ _ _ hd
  | remove d q =>
    have hd : d.id ≠ dev.id := hrem rfl
    simp only [QueueCall.isAdd, Bool.false_eq_true, false_and, if_false]
    unfold Context.queueStep Context.removeDeviceQueue at h
    dsimp only at h
    split_ifs at h <;>
      (simp only [Option.some.injEq] at h; subst h
       exact liveQueues_setQueueInfo_other _ _ _ _ hd)
  | possible d =>
    simp only [Context.queueStep, Option.some.injEq] at h
    subst h
    simp only [QueueCall.isAdd, Bool.false_eq_true, false_and, if_false]
    by_cases hd : d.id = dev.id
    · unfold Context.isDevQueuePossible Context.liveQueues Context.queueInfo Context.setQueueInfo
      simp [hd]
    · exact liveQueues_setQueueInfo_other _ _ _ _ hd

theorem liveQueues_queueRun (b : Build) (dev : Device) (ops : List QueueCall) (c c1 : Context)
    (hlt : c.liveQueues dev < UINT_MOD)
    (hrem : ∀ op ∈ ops, op.isRemove = true → op.devId ≠ dev.id)
    (h : Context.queueRun b c ops = some c1) :
    c1.liveQueues dev
      = (c.liveQueues dev
          + ops.countP (fun op => op.isAdd && decide (op.devId = dev.id))) % UINT_MOD := by
  induction ops generalizing c with
  | nil =>
    simp only [Context.queueRun, Option.some.injEq] at h
    subst h
    simp [Nat.mod_eq_of_lt hlt]
  | cons op ops ih =>
    unfold Context.queueRun at h
    cases hs : c.queueStep b op with
    | none => simp [hs] at h
    | some c2 =>
      simp only [hs] at h
      have h2 := liveQueues_queueStep b c c2 dev op (hrem op (List.mem_cons_self _ _)) hs
      have hlt2 : c2.liveQueues dev < UINT_MOD := by
        rw [h2]
        split_ifs
        · exact Nat.mod_lt _ (by decide)
        · exact hlt
      rw [ih c2 hlt2 (fun x hx => hrem x (List.mem_cons_of_mem _ hx)) h, h2, List.countP_cons]
      by_cases hc : op.isAdd = true ∧ op.devId = dev.id
      · simp only [hc, and_self, if_true, Bool.true_and, decide_True]
        unfold UINT_MOD
        omega
      · rw [if_neg hc]
        have : (op.isAdd && decide (op.devId = dev.id)) = false := by
          cases ha : op.isAdd
          · rfl
          · simp only [ha, true_and] at hc
            simp [hc]
        simp [this]

/-- C9: for every device whose reported `maxOnDeviceQueues_` is `m >= 1` (a
`cl_uint`, so `m < 2^32`) and that the context has never touched, after any
sequence of registry calls that completes, holds exactly `m` calls of
`addDeviceQueue` for that device and no `removeDeviceQueue` for it,
`isDevQueuePossible` answers false, and after one following
`removeDeviceQueue` for the device the answer is true again; on every
context `isDevQueuePossible` answers true if and only if the device's
live-queue count is strictly less than `m`. -/
theorem isDevQueuePossible_capacity (b : Build) (c c1 : Context) (dev : Device)
    (ops : List QueueCall) (queue : Nat)
    (hnew : c.deviceQueues_ dev.id = none)
    (hm : 1 ≤ dev.maxOnDeviceQueues_) (hu : dev.maxOnDeviceQueues_ < UINT_MOD)
    (hrem : ∀ op ∈ ops, op.isRemove = true → op.devId ≠ dev.id)
    (hadds : ops.countP (fun op => op.isAdd && decide (op.devId = dev.id))
      = dev.maxOnDeviceQueues_)
    (hrun : Context.queueRun b c ops = some c1) :
    (c1.isDevQueuePossible dev).1 = false ∧
    (∃ c2, (c1.isDevQueuePossible dev).2.removeDeviceQueue b dev queue = some c2 ∧
      (c2.isDevQueuePossible dev).1 = true) ∧
    (∀ c3 : Context,
      (c3.isDevQueuePossible dev).1 = true ↔ c3.liveQueues dev < dev.maxOnDeviceQueues_) := by
  have h0 : c.liveQueues dev = 0 := by
    simp [Context.liveQueues, Context.queueInfo, hnew, DeviceQueueInfo.init]
  have hcnt : c1.liveQueues dev = dev.maxOnDeviceQueues_ := by
    rw [liveQueues_queueRun b dev ops c c1 (by rw [h0]; decide) hrem hrun, h0, hadds,
      Nat.zero_add, Nat.mod_eq_of_lt hu]
  refine ⟨?_, ?_, ?_⟩
  · rw [isDevQueuePossible_fst, hcnt]
    simp
  · have hlive : 0 < (c1.isDevQueuePossible dev).2.liveQueues dev := by
      rw [liveQueues_isDevQueuePossible, hcnt]; exact hm
    obtain ⟨c2, h2, h3, _⟩ := removeDeviceQueue_live b _ dev queue hlive
    refine ⟨c2, h2, ?_⟩
    rw [isDevQueuePossible_fst, h3, liveQueues_isDevQueuePossible, hcnt]
    unfold UINT_MOD at hu ⊢
    simp only [decide_eq_true_eq]
    omega
  · intro c3
    rw [isDevQueuePossible_fst]
    simp

/-- Witness of C9: the device `gpuA` (capacity 2) on a fresh context; two adds
for it with a call for another device in between, then one remove. -/
theorem isDevQueuePossible_capacity_witness :
    ∃ c1, Context.queueRun linux64 emptyContext
        [.add gpuA 7 true, .add gpuB 9 true, .possible gpuA, .add gpuA 8 false] = some c1 ∧
      (c1.isDevQueuePossible gpuA).1 = false ∧
      (∃ c2, (c1.isDevQueuePossible gpuA).2.removeDeviceQueue linux64 gpuA 8 = some c2 ∧
        (c2.isDevQueuePossible gpuA).1 = true) :=
  ⟨_, rfl,
    (isDevQueuePossible_capacity linux64 emptyContext _ gpuA
      [.add gpuA 7 true, .add gpuB 9 true, .possible gpuA, .add gpuA 8 false] 8 rfl
      (by decide) (by decide) (by decide) (by decide) rfl).1,
    (isDevQueuePossible_capacity linux64 emptyContext _ gpuA
      [.add gpuA 7 true, .add gpuB 9 true, .possible gpuA, .add gpuA 8 false] 8 rfl
      (by decide) (by decide) (by decide) (by decide) rfl).2.1⟩

/-- C10: for every device with a live-queue count above zero and every queue
`q`, `removeDeviceQueue(device, q)` completes, sets the device's default-queue
reference to null when `q` is the recorded default and leaves the reference
unchanged when it is not, and `defDeviceQueue(device)` afterwards returns
that reference. -/
theorem removeDeviceQueue_default (b : Build) (c : Context) (dev : Device) (q : Nat)
    (hlive : 0 < c.liveQueues dev) :
    ∃ c1, c.removeDeviceQueue b dev q = some c1 ∧
      (q = (c.queueInfo dev).defDeviceQueue_ → (c1.queueInfo dev).defDeviceQueue_ = 0) ∧
      (q ≠ (c.queueInfo dev).defDeviceQueue_ →
        (c1.queueInfo dev).defDeviceQueue_ = (c.queueInfo dev).defDeviceQueue_) ∧
      c1.defDeviceQueue dev = (c1.queueInfo dev).defDeviceQueue_ ∧
      (c.queueInfo dev).defDeviceQueue_ = c.defDeviceQueue dev := by
  obtain ⟨c1, h1, _, h3⟩ := removeDeviceQueue_live b c dev q hlive
  refine ⟨c1, h1, ?_, ?_, ?_, ?_⟩
  · intro hq
    rw [h3, if_pos hq.symm]
  · intro hq
    rw [h3, if_neg (fun e => hq e.symm)]
  · exact defDeviceQueue_eq c1 dev
  · exact (defDeviceQueue_eq c dev).symm

/-- Witness of C10: on a context where queue 7 is the default of `gpuA` and
two queues are live, removing queue 7 clears the default and removing queue 8
keeps it. -/
theorem removeDeviceQueue_default_witness :
    (∃ c1, ((emptyContext.addDeviceQueue gpuA 7 true).addDeviceQueue gpuA 8
          false).removeDeviceQueue linux64 gpuA 7 = some c1 ∧ c1.defDeviceQueue gpuA = 0) ∧
    (∃ c1, ((emptyContext.addDeviceQueue gpuA 7 true).addDeviceQueue gpuA 8
          false).removeDeviceQueue linux64 gpuA 8 = some c1 ∧ c1.defDeviceQueue gpuA = 7) := by
  constructor
  · obtain ⟨c1, h1, h2, _, h4, _⟩ := removeDeviceQueue_default linux64
      ((emptyContext.addDeviceQueue gpuA 7 true).addDeviceQueue gpuA 8 false) gpuA 7
      (by decide)
    exact ⟨c1, h1, h4.trans (h2 rfl)⟩
  · obtain ⟨c1, h1, _, h3, h4, _⟩ := removeDeviceQueue_default linux64
      ((emptyContext.addDeviceQueue gpuA 7 true).addDeviceQueue gpuA 8 false) gpuA 8
      (by decide)
    exact ⟨c1, h1, h4.trans (h3 (by decide))⟩

/-! ## Device-queue registry: claim C11 -/

theorem removeDeviceQueue_zero_aborts (b : Build) (c : Context) (dev : Device) (queue : Nat)
    (hdbg : b.NDEBUG = false) (h : c.liveQueues dev = 0) :
    c.removeDeviceQueue b dev queue = none := by
  unfold Context.liveQueues at h
  unfold Context.removeDeviceQueue
  simp [hdbg, h]

theorem liveQueues_removeDeviceQueue (b : Build) (c c1 : Context) (dev : Device) (queue : Nat)
    (h : c.removeDeviceQueue b dev queue = some c1) :
    c1.liveQueues dev = (c.liveQueues dev + UINT_MOD - 1) % UINT_MOD ∧
    (b.NDEBUG = false → c.liveQueues dev ≠ 0) := by
  unfold Context.removeDeviceQueue at h
  dsimp only at h
  by_cases hz : b.NDEBUG = false ∧ (c.queueInfo dev).deviceQueueCnt_ = 0
  · rw [if_pos hz] at h
    exact absurd h (by simp)
  · rw [if_neg hz] at h
    simp only [Option.some.injEq] at h
    subst h
    constructor
    · unfold Context.liveQueues
      rw [queueInfo_setQueueInfo]
      split_ifs <;> rfl
    · intro hd h0
      exact hz ⟨hd, h0⟩

theorem liveQueues_queueStep_full (b : Build) (c c1 : Context) (dev : Device) (op : QueueCall)
    (h : c.queueStep b op = some c1) :
    c1.liveQueues dev
      = (if op.isAdd = true ∧ op.devId = dev.id then (c.liveQueues dev + 1) % UINT_MOD
         else if op.isRemove = true ∧ op.devId = dev.id then
           (c.liveQueues dev + UINT_MOD - 1) % UINT_MOD
         else c.liveQueues dev) ∧
    (b.NDEBUG = false → op.isRemove = true → op.devId = dev.id → c.liveQueues dev ≠ 0) := by
  cases op with
  | add d q f =>
    refine ⟨?_, fun _ hr => by simp [QueueCall.isRemove] at hr⟩
    have := liveQueues_queueStep b c c1 dev (.add d q f) (by simp [QueueCall.isRemove]) h
    rw [this]
    by_cases hc : (QueueCall.add d q f).isAdd = true ∧ (QueueCall.add d q f).devId = dev.id
    · rw [if_pos hc, if_pos hc]
    · rw [if_neg hc, if_neg hc]
      simp [QueueCall.isRemove]
  | remove d q =>
    by_cases hd : d.id = dev.id
    · have hq : c.queueInfo d = c.queueInfo dev := by
        simp [Context.queueInfo, hd]
      have hrm : c.removeDeviceQueue b dev q = some c1 := by
        have h2 : c.removeDeviceQueue b d q = some c1 := h
        unfold Context.removeDeviceQueue Context.setQueueInfo at h2 ⊢
        rw [hq, hd] at h2
        exact h2
      obtain ⟨h1, h2⟩ := liveQueues_removeDeviceQueue b c c1 dev q hrm
      refine ⟨?_, fun hb _ _ => h2 hb⟩
      simp [QueueCall.isAdd, QueueCall.isRemove, QueueCall.devId, hd, h1]
    · refine ⟨?_, fun _ _ he => absurd he hd⟩
      have := liveQueues_queueStep b c c1 dev (.remove d q) (fun _ => hd) h
      rw [this]
      simp [QueueCall.isAdd, QueueCall.isRemove, QueueCall.devId, hd]
  | possible d =>
    refine ⟨?_, fun _ hr => by simp [QueueCall.isRemove] at hr⟩
    have := liveQueues_queueStep b c c1 dev (.possible d) (by simp [QueueCall.isRemove]) h
    rw [this]
    simp [QueueCall.isAdd, QueueCall.isRemove]

theorem queueRun_balance (b : Build) (hdbg : b.NDEBUG = false) (dev : Device)
    (ops : List QueueCall) (c c1 : Context)
    (hbound : c.liveQueues dev + queueAdds dev.id ops < UINT_MOD)
    (h : Context.queueRun b c ops = some c1) :
    c1.liveQueues dev + queueRemoves dev.id ops = c.liveQueues dev + queueAdds dev.id ops := by
  induction ops generalizing c with
  | nil =>
    simp only [Context.queueRun, Option.some.injEq] at h
    subst h
    simp [queueAdds, queueRemoves]
  | cons op ops ih =>
    unfold Context.queueRun at h
    cases hs : c.queueStep b op with
    | none => simp [hs] at h
    | some c2 =>
      simp only [hs] at h
      obtain ⟨h2, h3⟩ := liveQueues_queueStep_full b c c2 dev op hs
      have ha : queueAdds dev.id (op :: ops)
          = queueAdds dev.id ops + (if op.isAdd = true ∧ op.devId = dev.id then 1 else 0) := by
        unfold queueAdds
        rw [List.countP_cons]
        simp
      have hr : queueRemoves dev.id (op :: ops)
          = queueRemoves dev.id ops
            + (if op.isRemove = true ∧ op.devId = dev.id then 1 else 0) := by
        unfold queueRemoves
        rw [List.countP_cons]
        simp
      rw [ha] at hbound ⊢
      rw [hr]
      by_cases hadd : op.isAdd = true ∧ op.devId = dev.id
      · have hnr : ¬ (op.isRemove = true ∧ op.devId = dev.id) := by
          intro hh
          cases op <;> simp [QueueCall.isAdd, QueueCall.isRemove] at hadd hh
        rw [if_pos hadd] at h2 hbound ⊢
        rw [if_neg hnr]
        have h4 : c2.liveQueues dev = c.liveQueues dev + 1 := by
          rw [h2]; exact Nat.mod_eq_of_lt (by omega)
        have := ih c2 (by rw [h4]; omega) h
        omega
      · rw [if_neg hadd] at h2 hbound ⊢
        by_cases hrem : op.isRemove = true ∧ op.devId = dev.id
        · rw [if_pos hrem] at h2 ⊢
          have hnz := h3 hdbg hrem.1 hrem.2
          have h4 : c2.liveQueues dev = c.liveQueues dev - 1 := by
            rw [h2]
            unfold UINT_MOD at hbound ⊢
            omega
          have := ih c2 (by rw [h4]; omega) h
          omega
        · rw [if_neg hrem] at h2 ⊢
          have := ih c2 (by rw [h2]; omega) h
          omega

theorem queueRun_adds (b : Build) (ops : List QueueCall) (c : Context)
    (h : ∀ op ∈ ops, op.isAdd = true) : ∃ c1, Context.queueRun b c ops = some c1 := by
  induction ops generalizing c with
  | nil => exact ⟨c, rfl⟩
  | cons op ops ih =>
    have ha := h op (List.mem_cons_self _ _)
    cases op with
    | add d q f =>
      unfold Context.queueRun
      simp only [Context.queueStep]
      exact ih _ (fun x hx => h x (List.mem_cons_of_mem _ hx))
    | remove d q => simp [QueueCall.isAdd] at ha
    | possible d => simp [QueueCall.isAdd] at ha

/-- C11, as stated, fails twice. In a build with `NDEBUG` the `assert` is
compiled out: `removeDeviceQueue` on a never-touched device returns and
decrements the `uint` counter from 0 to `2^32 - 1`. And with assertions on,
`2^32` calls of `addDeviceQueue` for one device complete and leave its counter
at 0, not at adds minus removes. -/
theorem removeDeviceQueue_underflow_not_fatal :
    (emptyContext.removeDeviceQueue release64 gpuA 7).map (fun c => c.liveQueues gpuA)
      = some (2 ^ 32 - 1) ∧
    ∃ c1, Context.queueRun linux64 emptyContext
        (List.replicate (2 ^ 32) (QueueCall.add gpuA 7 false)) = some c1 ∧
      c1.liveQueues gpuA = 0 ∧
      queueAdds gpuA.id (List.replicate (2 ^ 32) (QueueCall.add gpuA 7 false)) = 2 ^ 32 ∧
      queueRemoves gpuA.id (List.replicate (2 ^ 32) (QueueCall.add gpuA 7 false)) = 0 := by
  refine ⟨by decide, ?_⟩
  have hall : ∀ op ∈ List.replicate (2 ^ 32) (QueueCall.add gpuA 7 false), op.isAdd = true := by
    intro op hop
    rw [List.eq_of_mem_replicate hop]
    rfl
  have hrem : ∀ op ∈ List.replicate (2 ^ 32) (QueueCall.add gpuA 7 false),
      op.isRemove = true → op.devId ≠ gpuA.id := by
    intro op hop hr
    rw [List.eq_of_mem_replicate hop] at hr
    exact absurd hr (by decide)
  have hadds : queueAdds gpuA.id (List.replicate (2 ^ 32) (QueueCall.add gpuA 7 false))
      = 2 ^ 32 := by
    unfold queueAdds
    rw [List.countP_replicate]
    rfl
  have hrems : queueRemoves gpuA.id (List.replicate (2 ^ 32) (QueueCall.add gpuA 7 false))
      = 0 := by
    unfold queueRemoves
    rw [List.countP_replicate]
    rfl
  obtain ⟨c1, h1⟩ := queueRun_adds linux64 _ emptyContext hall
  refine ⟨c1, h1, ?_, hadds, hrems⟩
  have h2 := liveQueues_queueRun linux64 gpuA _ emptyContext c1 (by decide) hrem h1
  have h3 : List.countP (fun op => op.isAdd && decide (op.devId = gpuA.id))
      (List.replicate (2 ^ 32) (QueueCall.add gpuA 7 false)) = 2 ^ 32 := hadds
  rw [h3] at h2
  rw [h2]
  decide

/-- C11, amended: in a build where `assert` is active, `removeDeviceQueue` on
a device whose live-queue count is zero (a never-touched device included)
aborts and leaves no decremented state; hence over every sequence of registry
calls that completes from a state where the device has no live queue, with
fewer than `2^32` adds for the device, its live-queue count equals the number
of adds minus the number of removes for it, and the removes never exceed the
adds. -/
theorem removeDeviceQueue_accounting (b : Build) (c0 c1 : Context) (dev : Device)
    (ops : List QueueCall)
    (hdbg : b.NDEBUG = false)
    (hfresh : c0.liveQueues dev = 0)
    (hbound : queueAdds dev.id ops < UINT_MOD)
    (hrun : Context.queueRun b c0 ops = some c1) :
    (∀ (c : Context) (q : Nat), c.liveQueues dev = 0 → c.removeDeviceQueue b dev q = none) ∧
    (∀ (c : Context) (q : Nat), c.deviceQueues_ dev.id = none →
      c.removeDeviceQueue b dev q = none) ∧
    queueRemoves dev.id ops ≤ queueAdds dev.id ops ∧
    (c1.liveQueues dev : Int) = (queueAdds dev.id ops : Int) - (queueRemoves dev.id ops : Int) := by
  have hbal := queueRun_balance b hdbg dev ops c0 c1 (by rw [hfresh]; omega) hrun
  rw [hfresh] at hbal
  refine ⟨fun c q h => removeDeviceQueue_zero_aborts b c dev q hdbg h, ?_, by omega, by omega⟩
  intro c q hnone
  apply removeDeviceQueue_zero_aborts b c dev q hdbg
  simp [Context.liveQueues, Context.queueInfo, hnone, DeviceQueueInfo.init]

/-- Witness of C11 amended: on a fresh context, two adds and one remove for
`gpuA` with a call for another device in between leave one live queue. -/
theorem removeDeviceQueue_accounting_witness :
    ∃ c1, Context.queueRun linux64 emptyContext
        [.add gpuA 7 true, .add gpuB 9 true, .remove gpuA 7, .add gpuA 8 false] = some c1 ∧
      emptyContext.removeDeviceQueue linux64 gpuA 7 = none ∧
      (c1.liveQueues gpuA : Int) = 2 - 1 :=
  ⟨_, rfl,
    (removeDeviceQueue_accounting linux64 emptyContext _ gpuA
      [.add gpuA 7 true, .add gpuB 9 true, .remove gpuA 7, .add gpuA 8 false]
      rfl rfl (by decide) rfl).1 emptyContext 7 rfl,
    (removeDeviceQueue_accounting linux64 emptyContext _ gpuA
      [.add gpuA 7 true, .add gpuB 9 true, .remove gpuA 7, .add gpuA 8 false]
      rfl rfl (by decide) rfl).2.2.2⟩

/-! ## Membership query: claim C12 -/

theorem containsLoop_iff (device : Device) (l : List Device) :
    containsLoop device l = true ↔
      ∃ m ∈ l, device.id = m.id ∨ m.isAncestor device.id = true := by
  induction l with
  | nil => simp [containsLoop]
  | cons it rest ih =>
    unfold containsLoop
    by_cases h : device.id = it.id ∨ it.isAncestor device.id = true
    · rw [if_pos h]
      exact ⟨fun _ => ⟨it, List.mem_cons_self _ _, h⟩, fun _ => rfl⟩
    · rw [if_neg h, ih]
      constructor
      · rintro ⟨m, hm, hp⟩
        exact ⟨m, List.mem_cons_of_mem _ hm, hp⟩
      · rintro ⟨m, hm, hp⟩
        rcases List.mem_cons.mp hm with rfl | hm
        · exact absurd hp h
        · exact ⟨m, hm, hp⟩

/-- C12: for every context and every candidate device `d`, `containsDevice(d)`
is true if and only if `d` is (by address) some member device or some member
device reports itself an ancestor of `d`; it is false for a device that is
neither, and false for every `d` when the context has no devices. -/
theorem containsDevice_iff (c : Context) (d : Device) :
    (c.containsDevice d = true ↔
      ∃ m ∈ c.devices_, d.id = m.id ∨ m.isAncestor d.id = true) ∧
    ((∀ m ∈ c.devices_, d.id ≠ m.id ∧ m.isAncestor d.id = false) ↔
      c.containsDevice d = false) ∧
    (c.devices_ = [] → ∀ x : Device, c.containsDevice x = false) := by
  have h := containsLoop_iff d c.devices_
  refine ⟨h, ?_, ?_⟩
  · constructor
    · intro hall
      cases hc : c.containsDevice d with
      | false => rfl
      | true =>
        obtain ⟨m, hm, hp⟩ := h.mp hc
        rcases hp with hp | hp
        · exact absurd hp (hall m hm).1
        · rw [(hall m hm).2] at hp
          exact absurd hp (by decide)
    · intro hf m hm
      constructor
      · intro he
        have : c.containsDevice d = true := h.mpr ⟨m, hm, Or.inl he⟩
        rw [hf] at this
        exact absurd this (by decide)
      · cases ha : m.isAncestor d.id with
        | false => rfl
        | true =>
          have : c.containsDevice d = true := h.mpr ⟨m, hm, Or.inr ha⟩
          rw [hf] at this
          exact absurd this (by decide)
  · intro he x
    unfold Context.containsDevice
    rw [he]
    rfl

/-- Witness of C12: in a context over `[gpuA, accelE]`, the member `gpuA` and
the device at address 2 (of which `accelE` is an ancestor) are contained, the
unrelated device `cpuC` is not, and an empty context contains no device. -/
theorem containsDevice_iff_witness :
    ({ emptyContext with devices_ := [gpuA, accelE] } : Context).containsDevice gpuA = true ∧
    ({ emptyContext with devices_ := [gpuA, accelE] } : Context).containsDevice gpuB = true ∧
    ({ emptyContext with devices_ := [gpuA, accelE] } : Context).containsDevice cpuC = false ∧
    (∀ x : Device, emptyContext.containsDevice x = false) :=
  ⟨((containsDevice_iff { emptyContext with devices_ := [gpuA, accelE] } gpuA).1).mpr
      ⟨gpuA, List.Mem.head _, Or.inl rfl⟩,
   ((containsDevice_iff { emptyContext with devices_ := [gpuA, accelE] } gpuB).1).mpr
      ⟨accelE, List.Mem.tail _ (List.Mem.head _), Or.inr rfl⟩,
   ((containsDevice_iff { emptyContext with devices_ := [gpuA, accelE] } cpuC).2.1).mp
      (by decide),
   (containsDevice_iff emptyContext gpuA).2.2 rfl⟩

/-! ## Lemmas on `create` and on the destructor -/

theorem bindLoop_calls (info : Info) (ds : List Device) (result : Int) (calls : List Call) :
    (bindLoop info ds result calls).2
      = calls ++ ds.map
          (fun d => Call.bindExternalDevice d.id info.type_ info.hDev_ info.hCtx_ false) := by
  induction ds generalizing result calls with
  | nil => simp [bindLoop]
  | cons d ds ih =>
    unfold bindLoop
    dsimp only
    split_ifs <;> rw [ih] <;> simp

theorem bindLoop_result (info : Info) (ds : List Device) (result : Int) (calls : List Call) :
    (bindLoop info ds result calls).1
      = if ∀ d ∈ ds, d.bindExternalDevice info.type_ info.hDev_ info.hCtx_ false = true
        then result else CL_INVALID_VALUE := by
  induction ds generalizing result calls with
  | nil => simp [bindLoop]
  | cons d ds ih =>
    unfold bindLoop
    dsimp only
    by_cases hd : d.bindExternalDevice info.type_ info.hDev_ info.hCtx_ false = false
    · rw [if_pos hd, ih]
      have : ¬ ∀ x ∈ d :: ds,
          x.bindExternalDevice info.type_ info.hDev_ info.hCtx_ false = true := by
        intro h
        rw [h d (List.mem_cons_self _ _)] at hd
        exact absurd hd (by decide)
      rw [if_neg this]
      split_ifs <;> rfl
    · rw [if_neg hd, ih]
      have hd2 : d.bindExternalDevice info.type_ info.hDev_ info.hCtx_ false = true := by
        cases h : d.bindExternalDevice info.type_ info.hDev_ info.hCtx_ false
        · exact absurd h hd
        · rfl
      have : (∀ x ∈ d :: ds,
            x.bindExternalDevice info.type_ info.hDev_ info.hCtx_ false = true)
          ↔ ∀ x ∈ ds, x.bindExternalDevice info.type_ info.hDev_ info.hCtx_ false = true := by
        simp [hd2]
      simp only [this]

theorem create_devices (b : Build) (env : Env) (c : Context) (props : Option (List Element)) :
    (c.create b env props).2.1.devices_ = c.devices_ ∧
    (c.create b env props).2.1.info_ = c.info_ := by
  unfold Context.create
  cases props <;> dsimp only <;> split_ifs <;> exact ⟨rfl, rfl⟩

theorem create_calls_shape (b : Build) (env : Env) (c : Context)
    (props : Option (List Element)) :
    ∀ x ∈ (c.create b env props).2.2,
      x.isBind = true ∨ (∃ n, x = Call.loadLibrary n) ∨ ∃ h d k, x = Call.glInit h d k := by
  intro x hx
  have hb : ∀ d t h k v, (Call.bindExternalDevice d t h k v).isBind = true :=
    fun _ _ _ _ _ => rfl
  unfold Context.create at hx
  cases props <;> dsimp only at hx <;> split_ifs at hx <;>
    simp only [bindLoop_calls, List.nil_append, List.mem_append, List.mem_map, List.mem_singleton,
      List.not_mem_nil] at hx <;>
    aesop

theorem ctorLoop_calls (b : Build) (ds : List Device) (custom : Option Device)
    (svm : List Device) (calls : List Call) (r : Option Device × List Device × List Call)
    (h : ctorLoop b ds custom svm calls = some r) :
    r.2.2 = calls ++ ds.map (fun d => Call.retain d.id) := by
  induction ds generalizing custom svm calls with
  | nil =>
    simp only [ctorLoop, Option.some.injEq] at h
    simp [← h]
  | cons d ds ih =>
    unfold ctorLoop at h
    dsimp only at h
    split_ifs at h <;> rw [ih _ _ _ h] <;> simp

theorem Context_new_members (b : Build) (devices : List Device) (info : Info) (c : Context)
    (calls : List Call) (h : Context.new b devices info = some (c, calls)) :
    c.devices_ = devices ∧ c.info_ = info ∧
    calls = devices.map (fun d => Call.retain d.id) := by
  unfold Context.new at h
  cases hl : ctorLoop b devices none [] [] with
  | none => simp [hl] at h
  | some r =>
    obtain ⟨custom, svm, calls1⟩ := r
    have hc := ctorLoop_calls b devices none [] [] _ hl
    simp only [hl, Option.some.injEq, Prod.mk.injEq] at h
    obtain ⟨h1, h2⟩ := h
    subst h1 h2
    exact ⟨rfl, rfl, by simpa using hc⟩

theorem retains_map_retain (id : Nat) (ds : List Device) :
    retains id (ds.map (fun d => Call.retain d.id)) = ds.countP (fun d => decide (d.id = id)) ∧
    releases id (ds.map (fun d => Call.retain d.id)) = 0 := by
  unfold retains releases
  induction ds with
  | nil => exact ⟨rfl, rfl⟩
  | cons d ds ih =>
    rw [List.map_cons, List.count_cons, List.count_cons, List.countP_cons, ih.1, ih.2]
    by_cases hd : d.id = id
    · simp [hd]
    · simp [hd]

theorem releases_map_release (id : Nat) (ds : List Device) :
    releases id (ds.map (fun d => Call.release d.id)) = ds.countP (fun d => decide (d.id = id)) ∧
    retains id (ds.map (fun d => Call.release d.id)) = 0 := by
  unfold retains releases
  induction ds with
  | nil => exact ⟨rfl, rfl⟩
  | cons d ds ih =>
    rw [List.map_cons, List.count_cons, List.count_cons, List.countP_cons, ih.1, ih.2]
    by_cases hd : d.id = id
    · simp [hd]
    · simp [hd]

theorem destructor_refs (c : Context) (id : Nat) :
    releases id c.destructor.calls = c.devices_.countP (fun d => decide (d.id = id)) ∧
    retains id c.destructor.calls = 0 := by
  have h := releases_map_release id c.devices_
  unfold retains releases at h ⊢
  unfold Context.destructor
  dsimp only
  rw [List.count_append, List.count_append, h.1, h.2]
  split_ifs
  · constructor
    · rw [List.count_eq_zero.mpr (by simp), Nat.zero_add]
    · rw [List.count_eq_zero.mpr (by simp)]
  · exact ⟨by simp, by simp⟩

theorem create_refs (b : Build) (env : Env) (c : Context) (props : Option (List Element))
    (id : Nat) :
    retains id (c.create b env props).2.2 = 0 ∧ releases id (c.create b env props).2.2 = 0 := by
  have h := create_calls_shape b env c props
  unfold retains releases
  constructor
  · rw [List.count_eq_zero]
    intro hm
    rcases h _ hm with h1 | ⟨n, h1⟩ | ⟨a, d, k, h1⟩
    · simp [Call.isBind] at h1
    · simp at h1
    · simp at h1
  · rw [List.count_eq_zero]
    intro hm
    rcases h _ hm with h1 | ⟨n, h1⟩ | ⟨a, d, k, h1⟩
    · simp [Call.isBind] at h1
    · simp at h1
    · simp at h1

/-! ## Reference counting over the lifetime: claim C13 -/

/-- C13: for every device list on which the constructor completes, and every
outcome of `create` (never called, or called with any properties, binds and GL
collaborators), the constructor retains each device once per occurrence in
the list and nothing else, `create` issues no retain and no release, and the
destructor releases each device once per occurrence and retains nothing: over
construction, `create` and teardown every device has as many releases as
retains. -/
theorem construct_destroy_refcount (b : Build) (env : Env) (devices : List Device) (info : Info)
    (props : Option (List Element)) (c : Context) (calls : List Call) (id : Nat)
    (hnew : Context.new b devices info = some (c, calls)) :
    retains id calls = devices.countP (fun d => decide (d.id = id)) ∧
    releases id calls = 0 ∧
    releases id c.destructor.calls = devices.countP (fun d => decide (d.id = id)) ∧
    retains id c.destructor.calls = 0 ∧
    retains id (c.create b env props).2.2 = 0 ∧
    releases id (c.create b env props).2.2 = 0 ∧
    releases id (c.create b env props).2.1.destructor.calls
      = devices.countP (fun d => decide (d.id = id)) ∧
    retains id (c.create b env props).2.1.destructor.calls = 0 ∧
    retains id (calls ++ c.destructor.calls) = releases id (calls ++ c.destructor.calls) ∧
    retains id (calls ++ (c.create b env props).2.2
        ++ (c.create b env props).2.1.destructor.calls)
      = releases id (calls ++ (c.create b env props).2.2
        ++ (c.create b env props).2.1.destructor.calls) := by
  obtain ⟨hd, _, hc⟩ := Context_new_members b devices info c calls hnew
  have h1 := retains_map_retain id devices
  rw [← hc] at h1
  have h2 := destructor_refs c id
  rw [hd] at h2
  have h3 := create_refs b env c props id
  have h4 := destructor_refs (c.create b env props).2.1 id
  rw [(create_devices b env c props).1, hd] at h4
  refine ⟨h1.1, h1.2, h2.1, h2.2, h3.1, h3.2, h4.1, h4.2, ?_, ?_⟩
  · unfold retains releases at *
    rw [List.count_append, List.count_append]
    omega
  · unfold retains releases at *
    rw [List.count_append, List.count_append, List.count_append, List.count_append]
    omega

/-- Witness of C13: the list `[gpuA, gpuNoBind, gpuA]` with OpenGL interop
asked for; the bind of `gpuNoBind` fails in `create`, and the device at
address 1 is retained twice and released twice. -/
theorem construct_destroy_refcount_witness :
    ∃ c calls, Context.new linux64 [gpuA, gpuNoBind, gpuA] glInfo = some (c, calls) ∧
      (c.create linux64 sampleEnv none).1 = CL_INVALID_GL_SHAREGROUP_REFERENCE_KHR ∧
      retains 1 calls = 2 ∧
      releases 1 (c.create linux64 sampleEnv none).2.1.destructor.calls = 2 :=
  ⟨_, _, rfl, by decide,
    (construct_destroy_refcount linux64 sampleEnv [gpuA, gpuNoBind, gpuA] glInfo none _ _ 1
      rfl).1,
    (construct_destroy_refcount linux64 sampleEnv [gpuA, gpuNoBind, gpuA] glInfo none _ _ 1
      rfl).2.2.2.2.2.2.1⟩

/-! ## Custom host allocator: claims C14 and C15 -/

theorem ctorLoop_aborts (b : Build) (hdbg : b.NDEBUG = false) (ds : List Device)
    (custom : Option Device) (svm : List Device) (calls : List Call)
    (h : 2 ≤ (ds.filter (fun d => d.customHostAllocator)).length + custom.isSome.toNat) :
    ctorLoop b ds custom svm calls = none := by
  induction ds generalizing custom svm calls with
  | nil =>
    cases custom <;> simp at h
  | cons d ds ih =>
    unfold ctorLoop
    dsimp only
    cases hc : d.customHostAllocator
    · simp only [Bool.false_eq_true, if_false]
      apply ih
      simpa [hc] using h
    · simp only [if_true]
      by_cases hs : custom.isSome = true
      · rw [if_pos ⟨hdbg, hs⟩]
      · rw [if_neg (fun hh => hs hh.2)]
        apply ih
        have hs2 : custom.isSome = false := by
          cases hh : custom.isSome
          · rfl
          · exact absurd hh hs
        simp only [List.filter_cons, hc, if_true, List.length_cons, hs2, Bool.toNat_false,
          Nat.add_zero] at h
        simp only [Option.isSome_some, Bool.toNat_true]
        omega

theorem ctorLoop_custom (b : Build) (ds : List Device) (custom : Option Device)
    (svm : List Device) (calls : List Call) (r : Option Device × List Device × List Call)
    (h : ctorLoop b ds custom svm calls = some r) :
    r.1 = ((ds.filter (fun d => d.customHostAllocator)).getLast?).or custom := by
  induction ds generalizing custom svm calls with
  | nil =>
    simp only [ctorLoop, Option.some.injEq] at h
    simp [← h]
  | cons d ds ih =>
    unfold ctorLoop at h
    dsimp only at h
    cases hc : d.customHostAllocator
    · simp only [hc, Bool.false_eq_true, if_false] at h
      rw [ih _ _ _ h]
      simp [hc]
    · simp only [hc, if_true] at h
      have key : ∀ svm1 calls1, ctorLoop b ds (some d) svm1 calls1 = some r →
          r.1 = ((d :: ds).filter (fun d => d.customHostAllocator)).getLast?.or custom := by
        intro svm1 calls1 h1
        rw [ih _ _ _ h1, List.filter_cons_of_pos (by simpa using hc)]
        cases hl : (ds.filter (fun d => d.customHostAllocator)) with
        | nil => simp
        | cons x xs =>
          rw [List.getLast?_cons_cons]
          cases hg : (x :: xs).getLast? with
          | none => simp at hg
          | some y => rfl
      split_ifs at h
      · exact key _ _ h
      · exact key _ _ h

/-- C14, as stated, fails: in a build with `NDEBUG` the `assert` is compiled
out, and the constructor given two devices that both declare themselves the
custom host allocator completes and designates the second. -/
theorem Context_new_two_custom_allocators_no_abort :
    2 ≤ ([customA, customB].filter (fun d => d.customHostAllocator)).length ∧
    ∃ c calls, Context.new release64 [customA, customB] Info.zero = some (c, calls) ∧
      c.customHostAllocDevice_.map Device.id = some customB.id :=
  ⟨by decide, _, _, rfl, rfl⟩

/-- C14, amended: in a build where `assert` is active, for every device list
with two or more devices declaring themselves the custom host allocator the
constructor aborts instead of producing a context; in every build, for every
list with at most one such device the constructor completes and the
designated custom-allocator device is that device, or none when no device
declares it. -/
theorem Context_new_custom_allocator (b : Build) (devices : List Device) (info : Info) :
    (b.NDEBUG = false → 2 ≤ (devices.filter (fun d => d.customHostAllocator)).length →
      Context.new b devices info = none) ∧
    ((devices.filter (fun d => d.customHostAllocator)).length ≤ 1 →
      ∃ c calls, Context.new b devices info = some (c, calls) ∧
        c.customHostAllocDevice_ = (devices.filter (fun d => d.customHostAllocator)).head? ∧
        (∀ d ∈ devices, d.customHostAllocator = true → c.customHostAllocDevice_ = some d) ∧
        ((∀ d ∈ devices, d.customHostAllocator = false) → c.customHostAllocDevice_ = none)) := by
  constructor
  · intro hdbg h2
    unfold Context.new
    rw [ctorLoop_aborts b hdbg devices none [] [] (by simpa using h2)]
  · intro h1
    unfold Context.new
    cases hl : ctorLoop b devices none [] [] with
    | none =>
      have := (ctorLoop_none b devices none [] [] hl).2
      simp at this
      omega
    | some r =>
      obtain ⟨custom, svm, calls⟩ := r
      have hc := ctorLoop_custom b devices none [] [] _ hl
      dsimp only at hc ⊢
      have hhead : custom = (devices.filter (fun d => d.customHostAllocator)).head? := by
        rw [hc]
        cases hf : devices.filter (fun d => d.customHostAllocator) with
        | nil => rfl
        | cons x xs =>
          rw [hf] at h1
          have : xs = [] := by
            cases xs with
            | nil => rfl
            | cons y ys => simp at h1
          subst this
          rfl
      refine ⟨_, _, rfl, hhead, ?_, ?_⟩
      · intro d hd hcd
        show custom = some d
        rw [hhead]
        have hmem : d ∈ devices.filter (fun d => d.customHostAllocator) :=
          List.mem_filter.mpr ⟨hd, hcd⟩
        cases hf : devices.filter (fun d => d.customHostAllocator) with
        | nil => rw [hf] at hmem; simp at hmem
        | cons x xs =>
          rw [hf] at h1 hmem
          have : xs = [] := by
            cases xs with
            | nil => rfl
            | cons y ys => simp at h1
          subst this
          simp only [List.mem_singleton] at hmem
          rw [hmem]
          rfl
      · intro hall
        show custom = none
        rw [hhead]
        have : devices.filter (fun d => d.customHostAllocator) = [] := by
          rw [List.filter_eq_nil_iff]
          intro d hd
          rw [hall d hd]
          decide
        rw [this]
        rfl

/-- Witness of C14 amended: with assertions on `[customA, customB]` aborts,
and `[gpuA, customA]` designates `customA`. -/
theorem Context_new_custom_allocator_witness :
    Context.new linux64 [customA, customB] Info.zero = none ∧
    ∃ c calls, Context.new linux64 [gpuA, customA] Info.zero = some (c, calls) ∧
      c.customHostAllocDevice_ = some customA := by
  refine ⟨(Context_new_custom_allocator linux64 [customA, customB] Info.zero).1 rfl
    (by decide), ?_⟩
  obtain ⟨c, calls, h1, _, h3, _⟩ :=
    (Context_new_custom_allocator linux64 [gpuA, customA] Info.zero).2 (by decide)
  exact ⟨c, calls, h1, h3 customA (List.Mem.tail _ (List.Mem.head _)) rfl⟩

/-- C15: for every context, `hostAlloc` and `hostFree` route to the same
allocator: when a custom-host-allocator device was designated,
`hostAlloc(size, alignment, atomics)` returns exactly that device's
`hostAlloc` result and `hostFree(ptr)` calls only that device's `hostFree`;
when none was designated, `hostAlloc` returns the generic aligned allocation
for `(size, alignment)` and `hostFree` calls only the generic aligned
deallocation. -/
theorem hostAlloc_hostFree_routing (env : Env) (c : Context) (size alignment : Nat)
    (atomics : Bool) (ptr : Nat) :
    (∀ d, c.customHostAllocDevice_ = some d →
      c.hostAlloc env size alignment atomics
        = (d.hostAlloc size alignment atomics, [Call.hostAlloc d.id size alignment atomics]) ∧
      c.hostFree ptr = [Call.hostFree d.id ptr]) ∧
    (c.customHostAllocDevice_ = none →
      c.hostAlloc env size alignment atomics
        = (env.alignedAllocate size alignment, [Call.alignedAllocate size alignment]) ∧
      c.hostFree ptr = [Call.alignedDeallocate ptr]) := by
  constructor
  · intro d hd
    unfold Context.hostAlloc Context.hostFree
    rw [hd]
    exact ⟨rfl, rfl⟩
  · intro hn
    unfold Context.hostAlloc Context.hostFree
    rw [hn]
    exact ⟨rfl, rfl⟩

/-- Witness of C15: the context the constructor builds from `[gpuA, customA]`
routes to `customA`, the one it builds from `[gpuA]` to the generic
allocator. -/
theorem hostAlloc_hostFree_routing_witness :
    (∃ c calls, Context.new linux64 [gpuA, customA] Info.zero = some (c, calls) ∧
      c.hostAlloc sampleEnv 64 16 true = (0x5000, [Call.hostAlloc 6 64 16 true]) ∧
      c.hostFree 0x5000 = [Call.hostFree 6 0x5000]) ∧
    (∃ c calls, Context.new linux64 [gpuA] Info.zero = some (c, calls) ∧
      c.hostAlloc sampleEnv 64 16 true = (0x1000, [Call.alignedAllocate 64 16]) ∧
      c.hostFree 0x1000 = [Call.alignedDeallocate 0x1000]) :=
  ⟨⟨_, _, rfl,
      ((hostAlloc_hostFree_routing sampleEnv _ 64 16 true 0x5000).1 customA rfl).1,
      ((hostAlloc_hostFree_routing sampleEnv _ 64 16 true 0x5000).1 customA rfl).2⟩,
   ⟨_, _, rfl,
      ((hostAlloc_hostFree_routing sampleEnv _ 64 16 true 0x1000).2 rfl).1,
      ((hostAlloc_hostFree_routing sampleEnv _ 64 16 true 0x1000).2 rfl).2⟩⟩

/-! ## External-device binding in `create`: claims C16, C17 and C18 -/

theorem filter_isBind_binds (info : Info) (ds : List Device) :
    (ds.map (fun d => Call.bindExternalDevice d.id info.type_ info.hDev_ info.hCtx_ false)).filter
        Call.isBind
      = ds.map (fun d => Call.bindExternalDevice d.id info.type_ info.hDev_ info.hCtx_ false) := by
  rw [List.filter_eq_self]
  intro x hx
  obtain ⟨d, _, rfl⟩ := List.mem_map.mp hx
  rfl

theorem gl_flag_in_createBindMask (flags : Nat) (h : flags &&& createBindMask = 0) :
    flags &&& GLDeviceKhr = 0 := by
  have h1 : createBindMask &&& GLDeviceKhr = GLDeviceKhr := by decide
  rw [← h1, ← Nat.and_assoc, h, Nat.zero_and]

theorem create_allocated (b : Build) (env : Env) (c : Context) (props : Option (List Element))
    (halloc : copyAllocated b env c props = true) :
    ¬ (props.isSome = true ∧ env.newProperties (c.info_.propertiesSize_ / b.ptrBytes) = false) := by
  unfold copyAllocated at halloc
  intro h
  rw [h.1, h.2] at halloc
  exact absurd halloc (by decide)

theorem create_bind_calls (b : Build) (env : Env) (c : Context)
    (props : Option (List Element)) (halloc : copyAllocated b env c props = true) :
    (c.create b env props).2.2.filter Call.isBind = expectedBinds c := by
  have hno := create_allocated b env c props halloc
  have hf := filter_isBind_binds c.info_ c.devices_
  have hl : ∀ n, (Call.loadLibrary n).isBind = false := fun _ => rfl
  have hg : ∀ h d k, (Call.glInit h d k).isBind = false := fun _ _ _ => rfl
  unfold Context.create expectedBinds
  rw [if_neg hno]
  cases props <;> dsimp only <;> split_ifs <;>
    simp only [bindLoop_calls, List.nil_append, List.filter_append, hf, List.filter_cons, hl, hg,
      List.filter_nil, List.append_nil, Bool.false_eq_true, if_false]

theorem create_result_bind_failed (b : Build) (env : Env) (c : Context)
    (props : Option (List Element)) (halloc : copyAllocated b env c props = true)
    (hflag : c.info_.flags_ &&& createBindMask ≠ 0)
    (hfail : ∃ d ∈ c.devices_,
      d.bindExternalDevice c.info_.type_ c.info_.hDev_ c.info_.hCtx_ false = false) :
    (c.create b env props).1
      = if c.info_.flags_ &&& GLDeviceKhr ≠ 0 then CL_INVALID_GL_SHAREGROUP_REFERENCE_KHR
        else CL_INVALID_VALUE := by
  have hno := create_allocated b env c props halloc
  have hres : (bindLoop c.info_ c.devices_ CL_SUCCESS []).1 = CL_INVALID_VALUE := by
    rw [bindLoop_result, if_neg]
    intro hall
    obtain ⟨d, hd, hb⟩ := hfail
    rw [hall d hd] at hb
    exact absurd hb (by decide)
  have hne : CL_INVALID_VALUE ≠ CL_SUCCESS := by decide
  unfold Context.create
  rw [if_neg hno]
  cases props <;> dsimp only <;> rw [if_pos hflag, hres, if_pos hne] <;> split_ifs <;> rfl

theorem create_no_flag (b : Build) (env : Env) (c : Context)
    (props : Option (List Element)) (halloc : copyAllocated b env c props = true)
    (hflag : c.info_.flags_ &&& createBindMask = 0) :
    (c.create b env props).2.2 = [] ∧ (c.create b env props).1 = CL_SUCCESS := by
  have hno := create_allocated b env c props halloc
  have hgl := gl_flag_in_createBindMask _ hflag
  have h1 : ¬ (c.info_.flags_ &&& createBindMask ≠ 0) := fun h => h hflag
  have h2 : ¬ (c.info_.flags_ &&& GLDeviceKhr ≠ 0 ∧ c.glenv_ = none) := fun h => h.1 hgl
  have h3 : ¬ (CL_SUCCESS ≠ CL_SUCCESS) := fun h => h rfl
  unfold Context.create
  rw [if_neg hno]
  cases props <;> dsimp only <;> rw [if_neg h1] <;> dsimp only <;> rw [if_neg h3, if_neg h2] <;>
    exact ⟨rfl, rfl⟩

/-- C16: for every context, when the descriptor has at least one of the six
external-device flags set, `create` calls `bindExternalDevice` with
`validateOnly = false` exactly once on every member device, in list order,
not stopping at a failed bind, and if some bind answers false it returns
`CL_INVALID_GL_SHAREGROUP_REFERENCE_KHR` when the GL flag is set and
`CL_INVALID_VALUE` otherwise; when none of the six flags is set it issues no
call and returns `CL_SUCCESS`. The call is one that goes on past the `new[]`
of the property copy, which a plain `new[]` always lets it do (it never gives
null). -/
theorem create_binds_every_device (b : Build) (env : Env) (c : Context)
    (props : Option (List Element)) (halloc : copyAllocated b env c props = true) :
    (c.info_.flags_ &&& createBindMask ≠ 0 →
      (c.create b env props).2.2.filter Call.isBind
        = c.devices_.map
            (fun d =>
              Call.bindExternalDevice d.id c.info_.type_ c.info_.hDev_ c.info_.hCtx_ false) ∧
      ((∃ d ∈ c.devices_,
          d.bindExternalDevice c.info_.type_ c.info_.hDev_ c.info_.hCtx_ false = false) →
        (c.create b env props).1
          = if c.info_.flags_ &&& GLDeviceKhr ≠ 0 then CL_INVALID_GL_SHAREGROUP_REFERENCE_KHR
            else CL_INVALID_VALUE)) ∧
    (c.info_.flags_ &&& createBindMask = 0 →
      (c.create b env props).2.2 = [] ∧ (c.create b env props).1 = CL_SUCCESS) := by
  constructor
  · intro hflag
    constructor
    · rw [create_bind_calls b env c props halloc]
      unfold expectedBinds
      rw [if_pos hflag]
    · exact create_result_bind_failed b env c props halloc hflag
  · exact create_no_flag b env c props halloc

/-- Witness of C16: `create` is given the property list
`[{CL_GL_CONTEXT_KHR, 5}, {0, 0}]`. With the GL flag set and the second of two
devices failing to bind, both devices are asked, in order, and `create`
returns `CL_INVALID_GL_SHAREGROUP_REFERENCE_KHR`; with no flag set `create`
issues no call and succeeds. -/
theorem create_binds_every_device_witness :
    (glNoBindContext.create linux64 sampleEnv
        (some [⟨CL_GL_CONTEXT_KHR, 5⟩, ⟨0, 0⟩])).2.2.filter Call.isBind
      = [Call.bindExternalDevice 1 CL_GL_CONTEXT_KHR 0 5 false,
         Call.bindExternalDevice 8 CL_GL_CONTEXT_KHR 0 5 false] ∧
    (glNoBindContext.create linux64 sampleEnv (some [⟨CL_GL_CONTEXT_KHR, 5⟩, ⟨0, 0⟩])).1
      = CL_INVALID_GL_SHAREGROUP_REFERENCE_KHR ∧
    (emptyContext.create linux64 sampleEnv (some [⟨0, 0⟩])).2.2 = [] ∧
    (emptyContext.create linux64 sampleEnv (some [⟨0, 0⟩])).1 = CL_SUCCESS :=
  ⟨((create_binds_every_device linux64 sampleEnv glNoBindContext
        (some [⟨CL_GL_CONTEXT_KHR, 5⟩, ⟨0, 0⟩]) rfl).1 (by decide)).1,
   ((create_binds_every_device linux64 sampleEnv glNoBindContext
        (some [⟨CL_GL_CONTEXT_KHR, 5⟩, ⟨0, 0⟩]) rfl).1 (by decide)).2
      ⟨gpuNoBind, List.Mem.tail _ (List.Mem.head _), rfl⟩,
   ((create_binds_every_device linux64 sampleEnv emptyContext (some [⟨0, 0⟩]) rfl).2
      (by decide)).1,
   ((create_binds_every_device linux64 sampleEnv emptyContext (some [⟨0, 0⟩]) rfl).2
      (by decide)).2⟩

/-- C17 fails on the code where the OpenGL library cannot be loaded: on a
context with the GL flag set whose two devices both bind, `Os::loadLibrary`
answering null makes `create` skip the environment and return `CL_SUCCESS`
with no graphics-environment object, not
`CL_INVALID_GL_SHAREGROUP_REFERENCE_KHR`. The sibling path does what the claim
says: when the library loads and `init` fails, `create` returns
`CL_INVALID_GL_SHAREGROUP_REFERENCE_KHR` and holds no environment object. -/
theorem create_gl_library_load_fails_succeeds :
    glContext.info_.flags_ &&& GLDeviceKhr ≠ 0 ∧
    (∀ d ∈ glContext.devices_,
      d.bindExternalDevice glContext.info_.type_ glContext.info_.hDev_ glContext.info_.hCtx_
        false = true) ∧
    sampleEnv.loadLibrary (glLibraryName linux64) = 0 ∧
    (glContext.create linux64 sampleEnv none).1 = CL_SUCCESS ∧
    (glContext.create linux64 sampleEnv none).1 ≠ CL_INVALID_GL_SHAREGROUP_REFERENCE_KHR ∧
    (glContext.create linux64 sampleEnv none).2.1.glenv_ = none ∧
    (glContext.create linux64 sampleEnv none).2.2
      = [Call.bindExternalDevice 1 CL_GL_CONTEXT_KHR 0 5 false,
         Call.bindExternalDevice 2 CL_GL_CONTEXT_KHR 0 5 false,
         Call.loadLibrary (glLibraryName linux64)] ∧
    (glContext.create linux64 glInitFailsEnv none).1 = CL_INVALID_GL_SHAREGROUP_REFERENCE_KHR ∧
    (glContext.create linux64 glInitFailsEnv none).2.1.glenv_ = none := by
  refine ⟨by decide, by decide, rfl, rfl, by decide, rfl, rfl, rfl, rfl⟩

/-- C18 fails on the code for the D3D9 flags: the destructor tests only the
GL, D3D10 and D3D11 flags. On the descriptor of
`[{CL_CONTEXT_ADAPTER_D3D9_KHR, 5}, {0, 0}]` (Windows) `create` binds both
member devices and the destructor unbinds none of them, it only releases
them; on the GL descriptor the destructor does unbind both. -/
theorem destructor_skips_d3d9_unbind :
    checkProperties win64 (some [⟨CL_CONTEXT_ADAPTER_D3D9_KHR, 5⟩, ⟨0, 0⟩]) Info.zero
      = .returned CL_SUCCESS d3d9Info ∧
    (d3d9Context.create win64 sampleEnv none).1 = CL_SUCCESS ∧
    (d3d9Context.create win64 sampleEnv none).2.2
      = [Call.bindExternalDevice 1 CL_CONTEXT_ADAPTER_D3D9_KHR 5 0 false,
         Call.bindExternalDevice 2 CL_CONTEXT_ADAPTER_D3D9_KHR 5 0 false] ∧
    (d3d9Context.create win64 sampleEnv none).2.1.destructor.calls.filter Call.isUnbind = [] ∧
    (d3d9Context.create win64 sampleEnv none).2.1.destructor.calls
      = [Call.release 1, Call.release 2] ∧
    (glContext.create linux64 sampleEnv none).2.1.destructor.calls.filter Call.isUnbind
      = [Call.unbindExternalDevice 1 CL_GL_CONTEXT_KHR 0 5 false,
         Call.unbindExternalDevice 2 CL_GL_CONTEXT_KHR 0 5 false] := by
  refine ⟨by decide, rfl, rfl, rfl, rfl, rfl⟩

/-! ## Shared virtual memory: claims C19 and C20 -/

theorem svmAllocLoop_no_reference (front : Device) (size alignment flags : Nat)
    (l : List Device) (calls : List Call)
    (hid : ∀ d ∈ l, d.type = CL_DEVICE_TYPE_GPU → d.id ≠ front.id) :
    (svmAllocLoop front size alignment flags l 0 calls).1 = 0 := by
  induction l generalizing calls with
  | nil => rfl
  | cons d l ih =>
    have hl : ∀ x ∈ l, x.type = CL_DEVICE_TYPE_GPU → x.id ≠ front.id :=
      fun x hx => hid x (List.mem_cons_of_mem _ hx)
    unfold svmAllocLoop
    by_cases hg : d.type = CL_DEVICE_TYPE_GPU
    · have hd : d.id ≠ front.id := hid d (List.mem_cons_self _ _) hg
      simp only [hg, if_true, hd, if_false]
      have hyes : 0 ≠ d.svmAlloc size alignment flags ∨ d.svmAlloc size alignment flags = 0 := by
        by_cases h0 : d.svmAlloc size alignment flags = 0
        · exact Or.inr h0
        · exact Or.inl (fun e => h0 e.symm)
      rw [if_pos hyes]
    · simp only [hg, if_false]
      exact ih calls hl

/-- C19: for every context whose unified-memory device list is non-empty with
a first entry that is neither CPU-class nor GPU-class, `svmAlloc` returns null
for every request, whatever addresses the GPU-class devices of the list
answer. (An address names one device: an entry at the first entry's address
has the first entry's class.) -/
theorem svmAlloc_front_neither_class (env : Env) (c : Context) (size alignment flags : Nat)
    (front : Device) (rest : List Device)
    (hl : c.svmAllocDevice_ = front :: rest)
    (hcpu : front.type ≠ CL_DEVICE_TYPE_CPU) (hgpu : front.type ≠ CL_DEVICE_TYPE_GPU)
    (hid : ∀ d ∈ c.svmAllocDevice_, d.id = front.id → d.type = front.type) :
    (c.svmAlloc env size alignment flags).1 = 0 := by
  unfold Context.svmAlloc
  dsimp only
  split_ifs with h1
  · rfl
  · rw [hl]
    simp only [hcpu, if_false]
    apply svmAllocLoop_no_reference
    intro d hd hg he
    rw [← hl] at hd
    exact hgpu ((hid d hd he).symm.trans hg)

/-- Witness of C19: an accelerator-class device first, then a GPU-class device
that answers `0x2000`. -/
theorem svmAlloc_front_neither_class_witness :
    (accelFirstContext.svmAlloc sampleEnv 4096 256 0).1 = 0 :=
  svmAlloc_front_neither_class sampleEnv accelFirstContext 4096 256 0 accelE [gpuA] rfl
    (by decide) (by decide) (by decide)

/-- C20: on every context, if `svmAlloc` returns a non-null pointer then the
unified-memory device list is non-empty, so the read of its first entry in
`svmFree` is defined for every pointer; `svmFree` itself has no guard: on an
empty list its read of the first entry is undefined, while `svmAlloc` returns
null there without a call. -/
theorem svmAlloc_nonnull_list_nonempty (env : Env) (c : Context) (size alignment flags : Nat)
    (h : (c.svmAlloc env size alignment flags).1 ≠ 0) :
    c.svmAllocDevice_ ≠ [] ∧
    (∀ ptr, (c.svmFree ptr).isSome = true) ∧
    (∀ (c1 : Context) (ptr : Nat), c1.svmAllocDevice_ = [] →
      c1.svmFree ptr = none ∧ c1.svmAlloc env size alignment flags = (0, [])) := by
  have hne : c.svmAllocDevice_ ≠ [] := by
    intro he
    apply h
    unfold Context.svmAlloc
    rw [he]
    rfl
  refine ⟨hne, ?_, ?_⟩
  · intro ptr
    unfold Context.svmFree
    cases hl : c.svmAllocDevice_ with
    | nil => exact absurd hl hne
    | cons f r =>
      dsimp only
      split_ifs <;> rfl
  · intro c1 ptr he
    unfold Context.svmFree Context.svmAlloc
    rw [he]
    exact ⟨rfl, rfl⟩

/-- Witness of C20: two GPU-class devices that agree on `0x2000`. -/
theorem svmAlloc_nonnull_list_nonempty_witness :
    twoGpuContext.svmAllocDevice_ ≠ [] ∧
    (∀ ptr, (twoGpuContext.svmFree ptr).isSome = true) ∧
    (∀ (c1 : Context) (ptr : Nat), c1.svmAllocDevice_ = [] →
      c1.svmFree ptr = none ∧ c1.svmAlloc sampleEnv 4096 256 0 = (0, [])) :=
  svmAlloc_nonnull_list_nonempty sampleEnv twoGpuContext 4096 256 0 (by decide)

end amd
